import Mathlib

/-!
Verification development for the OAuthDIRAC session/token subsystem.

The definitions below are a shallow embedding of the Python sources:

* `OAuthDIRAC/FrameworkSystem/DB/OAuthDB.py` (session store: `updateSession`,
  `killSession`, `cleanZombieSessions`, `parseAuthResponse`, `__parse`,
  `__modifyUser`),
* `OAuthDIRAC/FrameworkSystem/Service/OAuthManagerHandler.py`
  (`export_parseAuthResponse`, `__parseAuthResponse`, `__cleanOAuthDB`),
* `OAuthDIRAC/FrameworkSystem/Utilities/OAuth2.py` (`fetchToken`),
* `OAuthDIRAC/Resources/IdProvider/OAuth2IdProvider.py` (`__parseUserProfile`),
* `OAuthDIRAC/FrameworkSystem/scripts/dirac-proxy-init.py` (the status
  polling loop of `doOAuthMagic`).

Database rows are modelled as Lean structures, the MySQL `UTC_TIMESTAMP()`
clock as an integer parameter `now` (seconds), and external collaborators
(identity-provider HTTP round trips, the DIRAC registry and configuration
service, mail delivery) as explicit oracle arguments, so every function here
is executable.
-/

/-- Value stored in a field-update dictionary passed to `OAuthDB.updateSession`:
a Python `int` (relative seconds), a string, or an absolute timestamp (the
result of `UTC_TIMESTAMP()` / `ADDDATE`, modelled on the integer clock). -/
inductive FieldVal where
  | int (n : Int)
  | str (s : String)
  | time (t : Int)
deriving DecidableEq, Repr

/-- Lookup in an association-list dictionary (Python `dict` access). -/
def dictGet (d : List (String × FieldVal)) (k : String) : Option FieldVal :=
  match d with
  | [] => none
  | (k1, v) :: rest => if k1 = k then some v else dictGet rest k

/-- Assignment `d[k] = v` on an association-list dictionary. -/
def dictSet (d : List (String × FieldVal)) (k : String) (v : FieldVal) :
    List (String × FieldVal) :=
  match d with
  | [] => [(k, v)]
  | (k1, v1) :: rest => if k1 = k then (k1, v) :: rest else (k1, v1) :: dictSet rest k v

theorem dictGet_dictSet_same (d : List (String × FieldVal)) (k : String) (v : FieldVal) :
    dictGet (dictSet d k v) k = some v := by
  induction d with
  | nil => simp [dictGet, dictSet]
  | cons p rest ih =>
    obtain ⟨k1, v1⟩ := p
    by_cases h : k1 = k <;> simp [dictGet, dictSet, h, ih]

theorem dictGet_dictSet_other (d : List (String × FieldVal)) (k k2 : String)
    (v : FieldVal) (hne : k ≠ k2) : dictGet (dictSet d k v) k2 = dictGet d k2 := by
  induction d with
  | nil => simp [dictGet, dictSet, hne]
  | cons p rest ih =>
    obtain ⟨k1, v1⟩ := p
    by_cases h : k1 = k <;> simp [dictGet, dictSet, h, ih]
    · subst h; simp [hne, dictGet]

/-- Row of the `Sessions` table (schema of `OAuthDB.tableDict` plus the
`Reserved` marker used by the service handler; `State` is the session
identifier, timestamps are seconds on the store clock, `refreshToken = none`
models the absence of the `RefreshToken` key in a token dictionary). -/
structure SessionRow where
  state : String
  status : String := "prepared"
  comment : String := ""
  provider : String := ""
  sub : String := ""
  tokenType : String := "bearer"
  accessToken : Option String := none
  refreshToken : Option String := none
  lastAccess : Int := 0
  expiresIn : Int := 0
  userName : String := ""
  reserved : Bool := false
deriving DecidableEq, Repr

/-- Session store: list of rows of the `Sessions` table. -/
abbrev Store := List SessionRow

/-- Row with a given `State`, as `getFields(..., condDict={State: s})`. -/
def lookupRow (store : Store) (s : String) : Option SessionRow :=
  List.find? (fun r => r.state = s) store

/-- Application of one key of an update dictionary to a row (the effect of
`updateFields` on the `Sessions` table for that column). -/
def setField (r : SessionRow) (kv : String × FieldVal) : SessionRow :=
  match kv.2 with
  | .str v =>
    if kv.1 = "Status" then { r with status := v }
    else if kv.1 = "Comment" then { r with comment := v }
    else if kv.1 = "Provider" then { r with provider := v }
    else if kv.1 = "Sub" then { r with sub := v }
    else if kv.1 = "TokenType" then { r with tokenType := v }
    else if kv.1 = "AccessToken" then { r with accessToken := some v }
    else if kv.1 = "RefreshToken" then { r with refreshToken := some v }
    else if kv.1 = "UserName" then { r with userName := v }
    else r
  | .time t =>
    if kv.1 = "LastAccess" then { r with lastAccess := t }
    else if kv.1 = "ExpiresIn" then { r with expiresIn := t }
    else r
  | .int _ => r

/-- Application of a whole update dictionary to a row. -/
def applyFields (r : SessionRow) (fields : List (String × FieldVal)) : SessionRow :=
  fields.foldl setField r

/-- Embeds the body of `OAuthDB.updateSession` (`OAuthDB.py:580-601`): the
update dictionary always receives `LastAccess = UTC_TIMESTAMP()` (the clock
`now`), and an `ExpiresIn` supplied as a Python `int` is replaced by the
absolute timestamp `ADDDATE(UTC_TIMESTAMP(), INTERVAL n SECOND)`, i.e.
`now + n` on the store clock. -/
def updateSessionFields (fields : List (String × FieldVal)) (now : Int) :
    List (String × FieldVal) :=
  let f1 := dictSet fields "LastAccess" (.time now)
  match dictGet f1 "ExpiresIn" with
  | some (.int n) => dictSet f1 "ExpiresIn" (.time (now + n))
  | _ => f1

/-- Embeds `OAuthDB.updateSession` applied to the store with
`condDict = (State = state)`: every matching row receives the converted
update dictionary. -/
def dbUpdateSession (store : Store) (state : String)
    (fields : List (String × FieldVal)) (now : Int) : Store :=
  List.map (fun r => if r.state = state then applyFields r (updateSessionFields fields now) else r)
    store

theorem setField_state (r : SessionRow) (kv : String × FieldVal) :
    (setField r kv).state = r.state := by
  unfold setField
  rcases kv with ⟨k, v⟩
  cases v <;> simp only <;> split_ifs <;> rfl

theorem applyFields_state (r : SessionRow) (d : List (String × FieldVal)) :
    (applyFields r d).state = r.state := by
  induction d generalizing r with
  | nil => rfl
  | cons kv rest ih => simp [applyFields, List.foldl_cons] at ih ⊢; rw [ih, setField_state]

theorem setField_lastAccess_of_ne (r : SessionRow) (kv : String × FieldVal)
    (h : kv.1 ≠ "LastAccess") : (setField r kv).lastAccess = r.lastAccess := by
  unfold setField
  rcases kv with ⟨k, v⟩
  cases v <;> simp only <;> split_ifs <;> simp_all

theorem setField_expiresIn_of_ne (r : SessionRow) (kv : String × FieldVal)
    (h : kv.1 ≠ "ExpiresIn") : (setField r kv).expiresIn = r.expiresIn := by
  unfold setField
  rcases kv with ⟨k, v⟩
  cases v <;> simp only <;> split_ifs <;> simp_all

theorem applyFields_lastAccess_of_not_mem (r : SessionRow) (d : List (String × FieldVal))
    (h : "LastAccess" ∉ d.map Prod.fst) : (applyFields r d).lastAccess = r.lastAccess := by
  induction d generalizing r with
  | nil => rfl
  | cons kv rest ih =>
    simp only [List.map_cons, List.mem_cons] at h
    push_neg at h
    simp only [applyFields, List.foldl_cons] at ih ⊢
    rw [ih _ h.2, setField_lastAccess_of_ne _ _ (fun he => h.1 he.symm)]

theorem applyFields_expiresIn_of_not_mem (r : SessionRow) (d : List (String × FieldVal))
    (h : "ExpiresIn" ∉ d.map Prod.fst) : (applyFields r d).expiresIn = r.expiresIn := by
  induction d generalizing r with
  | nil => rfl
  | cons kv rest ih =>
    simp only [List.map_cons, List.mem_cons] at h
    push_neg at h
    simp only [applyFields, List.foldl_cons] at ih ⊢
    rw [ih _ h.2, setField_expiresIn_of_ne _ _ (fun he => h.1 he.symm)]

theorem applyFields_lastAccess_of_get (r : SessionRow) (d : List (String × FieldVal))
    (t : Int) (hnod : (d.map Prod.fst).Nodup)
    (hget : dictGet d "LastAccess" = some (.time t)) :
    (applyFields r d).lastAccess = t := by
  induction d generalizing r with
  | nil => simp [dictGet] at hget
  | cons kv rest ih =>
    obtain ⟨k1, v1⟩ := kv
    simp only [List.map_cons, List.nodup_cons] at hnod
    simp only [dictGet] at hget
    by_cases hk : k1 = "LastAccess"
    · subst hk
      simp only [if_pos rfl] at hget
      cases hget
      simp only [applyFields, List.foldl_cons]
      rw [show setField r ("LastAccess", FieldVal.time t) = { r with lastAccess := t } from rfl]
      exact applyFields_lastAccess_of_not_mem _ _ hnod.1
    · simp only [if_neg hk] at hget
      simp only [applyFields, List.foldl_cons]
      exact ih _ hnod.2 hget

theorem applyFields_expiresIn_of_get (r : SessionRow) (d : List (String × FieldVal))
    (t : Int) (hnod : (d.map Prod.fst).Nodup)
    (hget : dictGet d "ExpiresIn" = some (.time t)) :
    (applyFields r d).expiresIn = t := by
  induction d generalizing r with
  | nil => simp [dictGet] at hget
  | cons kv rest ih =>
    obtain ⟨k1, v1⟩ := kv
    simp only [List.map_cons, List.nodup_cons] at hnod
    simp only [dictGet] at hget
    by_cases hk : k1 = "ExpiresIn"
    · subst hk
      simp only [if_pos rfl] at hget
      cases hget
      simp only [applyFields, List.foldl_cons]
      rw [show setField r ("ExpiresIn", FieldVal.time t) = { r with expiresIn := t } from rfl]
      exact applyFields_expiresIn_of_not_mem _ _ hnod.1
    · simp only [if_neg hk] at hget
      simp only [applyFields, List.foldl_cons]
      exact ih _ hnod.2 hget

theorem keys_dictSet (d : List (String × FieldVal)) (k : String) (v : FieldVal) :
    (dictSet d k v).map Prod.fst =
      if k ∈ d.map Prod.fst then d.map Prod.fst else d.map Prod.fst ++ [k] := by
  induction d with
  | nil => simp [dictSet]
  | cons kv rest ih =>
    obtain ⟨k1, v1⟩ := kv
    by_cases h : k1 = k
    · subst h; simp [dictSet]
    · have hks : k ≠ k1 := fun hk => h hk.symm
      simp only [dictSet, if_neg h, List.map_cons, ih, List.mem_cons, hks, false_or]
      by_cases hm : k ∈ List.map Prod.fst rest <;> simp [hm]

theorem keys_dictSet_nodup (d : List (String × FieldVal)) (k : String) (v : FieldVal)
    (hnod : (d.map Prod.fst).Nodup) : ((dictSet d k v).map Prod.fst).Nodup := by
  rw [keys_dictSet]
  by_cases hm : k ∈ d.map Prod.fst
  · simpa [hm]
  · simp [hm, List.nodup_append, hnod]

/-- C4: every call of `OAuthDB.updateSession` stamps `LastAccess` with the
store clock `now` in the same update dictionary; an `ExpiresIn` supplied as a
relative integer `n` of seconds is stored as the absolute timestamp
`now + n`, so the stored expiry minus the update time equals the supplied
seconds exactly; on the table, every row matching the session receives that
`LastAccess` and converted `ExpiresIn` (the dictionary hypothesis `hnod`
states that `fields` is a Python dict, i.e. has no duplicate keys). -/
theorem updateSession_stamps_lastAccess_and_converts_expiry
    (fields : List (String × FieldVal)) (now n : Int) (store : Store) (state : String)
    (hnod : (fields.map Prod.fst).Nodup) :
    dictGet (updateSessionFields fields now) "LastAccess" = some (.time now)
    ∧ (dictGet fields "ExpiresIn" = some (.int n) →
        dictGet (updateSessionFields fields now) "ExpiresIn" = some (.time (now + n))
        ∧ now + n - now = n)
    ∧ (∀ r2 ∈ dbUpdateSession store state fields now, r2.state = state →
        r2.lastAccess = now
        ∧ (dictGet fields "ExpiresIn" = some (.int n) → r2.expiresIn = now + n)) := by
  have hla : dictGet (updateSessionFields fields now) "LastAccess" = some (.time now) := by
    unfold updateSessionFields
    cases hg : dictGet (dictSet fields "LastAccess" (.time now)) "ExpiresIn" with
    | none => simp only [hg]; exact dictGet_dictSet_same _ _ _
    | some v =>
      cases v with
      | int n2 =>
        simp only [hg]
        rw [dictGet_dictSet_other _ _ _ _ (by decide : "ExpiresIn" ≠ "LastAccess")]
        exact dictGet_dictSet_same _ _ _
      | str s2 => simp only [hg]; exact dictGet_dictSet_same _ _ _
      | time t2 => simp only [hg]; exact dictGet_dictSet_same _ _ _
  have hexp : dictGet fields "ExpiresIn" = some (.int n) →
      dictGet (updateSessionFields fields now) "ExpiresIn" = some (.time (now + n)) := by
    intro hin
    unfold updateSessionFields
    have h1 : dictGet (dictSet fields "LastAccess" (.time now)) "ExpiresIn" = some (.int n) := by
      rw [dictGet_dictSet_other _ _ _ _ (by decide : "LastAccess" ≠ "ExpiresIn")]
      exact hin
    simp only [h1]
    exact dictGet_dictSet_same _ _ _
  have hnod2 : ((updateSessionFields fields now).map Prod.fst).Nodup := by
    unfold updateSessionFields
    cases hg : dictGet (dictSet fields "LastAccess" (.time now)) "ExpiresIn" with
    | none => simp only [hg]; exact keys_dictSet_nodup _ _ _ hnod
    | some v =>
      cases v with
      | int n2 =>
        simp only [hg]
        exact keys_dictSet_nodup _ _ _ (keys_dictSet_nodup _ _ _ hnod)
      | str s2 => simp only [hg]; exact keys_dictSet_nodup _ _ _ hnod
      | time t2 => simp only [hg]; exact keys_dictSet_nodup _ _ _ hnod
  refine ⟨hla, fun hin => ⟨hexp hin, by ring⟩, ?_⟩
  intro r2 hmem hst
  simp only [dbUpdateSession, List.mem_map] at hmem
  obtain ⟨r, hr, heq⟩ := hmem
  by_cases hcase : r.state = state
  · simp only [if_pos hcase] at heq
    subst heq
    exact ⟨applyFields_lastAccess_of_get _ _ _ hnod2 hla,
      fun hin => applyFields_expiresIn_of_get _ _ _ hnod2 (hexp hin)⟩
  · rw [if_neg hcase] at heq
    subst heq
    exact absurd hst hcase

/-- Witness for C4 at a concrete input: updating session `s1` with a token
bundle whose `ExpiresIn` is the relative value 3600 seconds at clock time
1000. -/
theorem updateSession_stamps_lastAccess_and_converts_expiry_witness :
    dictGet (updateSessionFields [("ExpiresIn", FieldVal.int 3600)] 1000) "LastAccess"
        = some (.time 1000)
    ∧ (dictGet [("ExpiresIn", FieldVal.int 3600)] "ExpiresIn" = some (.int 3600) →
        dictGet (updateSessionFields [("ExpiresIn", FieldVal.int 3600)] 1000) "ExpiresIn"
            = some (.time (1000 + 3600))
        ∧ (1000 : Int) + 3600 - 1000 = 3600)
    ∧ (∀ r2 ∈ dbUpdateSession [{ state := "s1" }] "s1" [("ExpiresIn", FieldVal.int 3600)] 1000,
        r2.state = "s1" →
        r2.lastAccess = 1000
        ∧ (dictGet [("ExpiresIn", FieldVal.int 3600)] "ExpiresIn" = some (.int 3600) →
            r2.expiresIn = 1000 + 3600)) :=
  updateSession_stamps_lastAccess_and_converts_expiry
    [("ExpiresIn", FieldVal.int 3600)] 1000 3600 [{ state := "s1" }] "s1" (by decide)

/-- Embeds the store effect of `OAuthDB.killSession`:
`deleteEntries('Sessions', condDict=(State = s))`. -/
def killSessionStore (store : Store) (s : String) : Store :=
  store.filter (fun r => r.state != s)

theorem mem_killSessionStore (store : Store) (s : String) (r : SessionRow) :
    r ∈ killSessionStore store s ↔ r ∈ store ∧ r.state ≠ s := by
  simp [killSessionStore, List.mem_filter]

theorem lookupRow_killSessionStore (store : Store) (s : String) :
    lookupRow (killSessionStore store s) s = none := by
  rw [lookupRow, List.find?_eq_none]
  intro r hr
  rw [mem_killSessionStore] at hr
  simp [hr.2]

/-- Embeds `OAuthDB.killSession` (`OAuthDB.py:548-578`): read the row
(`Provider`, tokens) for the session; when no row is found, return `S_OK`
at once; otherwise delete the entries, then obtain the identity provider
(`factoryRes` oracle) and log out (`logOut` oracle).  The third component
logs the provider round trips (`logOut` calls) made by this call. -/
def killSessionDB (store : Store) (s : String)
    (factoryRes : String → Except String Unit)
    (logOut : SessionRow → Except String Unit) :
    Except String Unit × Store × List String :=
  match lookupRow store s with
  | none => (Except.ok (), store, [])
  | some r =>
    let store1 := killSessionStore store s
    match factoryRes r.provider with
    | .error e => (.error e, store1, [])
    | .ok _ =>
      match logOut r with
      | .error e => (.error e, store1, ["logOut " ++ r.provider])
      | .ok _ => (.ok (), store1, ["logOut " ++ r.provider])

/-- C10: `killSession` is idempotent at its public interface: for a session
identifier absent from the store (including one already killed) it returns
`S_OK` without deleting anything and without contacting the identity
provider; consequently a second consecutive `killSession` on the same
identifier succeeds, leaves the store exactly as after the first call, and
performs no provider round trip. -/
theorem killSession_idempotent (store : Store) (s : String)
    (factoryRes : String → Except String Unit)
    (logOut : SessionRow → Except String Unit) :
    (lookupRow store s = none →
      killSessionDB store s factoryRes logOut = (Except.ok (), store, []))
    ∧ (∀ res st1 ops, killSessionDB store s factoryRes logOut = (res, st1, ops) →
        killSessionDB st1 s factoryRes logOut = (Except.ok (), st1, [])) := by
  constructor
  · intro hnone
    simp [killSessionDB, hnone]
  · intro res st1 ops hrun
    have hlook : lookupRow st1 s = none := by
      unfold killSessionDB at hrun
      cases hl : lookupRow store s with
      | none =>
        rw [hl] at hrun
        cases hrun
        exact hl
      | some r =>
        rw [hl] at hrun
        simp only at hrun
        cases hf : factoryRes r.provider with
        | error e =>
          rw [hf] at hrun
          cases hrun
          exact lookupRow_killSessionStore store s
        | ok u =>
          rw [hf] at hrun
          cases hg : logOut r with
          | error e =>
            rw [hg] at hrun
            cases hrun
            exact lookupRow_killSessionStore store s
          | ok v =>
            rw [hg] at hrun
            cases hrun
            exact lookupRow_killSessionStore store s
    simp [killSessionDB, hlook]

/-- Witness for C10 at a concrete input: a one-row store; the first kill
removes the row, the second returns `S_OK` on the emptied store without any
provider call. -/
theorem killSession_idempotent_witness :
    (lookupRow [] "s1" = none →
      killSessionDB [] "s1" (fun _ => Except.ok ()) (fun _ => Except.ok ())
        = (Except.ok (), [], []))
    ∧ (∀ res st1 ops,
        killSessionDB [] "s1" (fun _ => Except.ok ()) (fun _ => Except.ok ()) = (res, st1, ops) →
        killSessionDB st1 "s1" (fun _ => Except.ok ()) (fun _ => Except.ok ())
          = (Except.ok (), st1, [])) :=
  killSession_idempotent [] "s1" (fun _ => Except.ok ()) (fun _ => Except.ok ())

/-- Modelled from the spec: `OAuthDB.getZombieSessions` is not under `src/`
(only its caller `OAuthManagerHandler.__cleanOAuthDB` is); per the spec the
sweep selects sessions whose `LastAccess` age exceeds a fixed threshold,
"excluding reserved sessions, which are instead refreshed rather than
killed".  The threshold of 43200 seconds (12 hours) is taken from the
in-src revision `OAuthDB.cleanZombieSessions` (`OAuthDB.py:80`, filter
`TIMESTAMPDIFF(SECOND,LastAccess,UTC_TIMESTAMP()) > 43200`).  Returns the
`State` identifiers of the zombie sessions. -/
def getZombieSessions (store : Store) (now : Int) : List String :=
  (store.filter (fun r => !r.reserved && decide (now - r.lastAccess > 43200))).map
    (fun r => r.state)

/-- Embeds `OAuthManagerHandler.__cleanOAuthDB`
(`OAuthManagerHandler.py:183-209`): every session returned by
`getZombieSessions` is killed (`killSession` is invoked on it whether or
not the provider log-out succeeds); only the store effect is modelled. -/
def cleanOAuthDB (store : Store) (now : Int) : Store :=
  (getZombieSessions store now).foldl killSessionStore store

theorem mem_foldl_killSessionStore (l : List String) (store : Store) (r : SessionRow) :
    r ∈ l.foldl killSessionStore store ↔ r ∈ store ∧ r.state ∉ l := by
  induction l generalizing store with
  | nil => simp
  | cons x xs ih =>
    rw [List.foldl_cons, ih, mem_killSessionStore]
    simp only [List.mem_cons]
    tauto

/-- C5: the zombie sweep deletes exactly the sessions whose `LastAccess` is
more than 43200 seconds (12 hours) old and that are not reserved: a
reserved session survives the sweep whatever its age, and a non-reserved
session survives if and only if its age is within the threshold (`hnod`
states the store invariant that session identifiers are unique). -/
theorem cleanOAuthDB_sweeps_exactly_old_nonreserved (store : Store) (now : Int)
    (r : SessionRow) (hnod : (store.map (fun r2 => r2.state)).Nodup) (hr : r ∈ store) :
    (r.reserved = true → r ∈ cleanOAuthDB store now)
    ∧ (r ∈ cleanOAuthDB store now ↔ (r.reserved = true ∨ now - r.lastAccess ≤ 43200)) := by
  have hinj := List.inj_on_of_nodup_map hnod
  have hch : r ∈ cleanOAuthDB store now ↔ (r.reserved = true ∨ now - r.lastAccess ≤ 43200) := by
    rw [cleanOAuthDB, mem_foldl_killSessionStore]
    constructor
    · rintro ⟨-, hnz⟩
      by_contra hcon
      push_neg at hcon
      obtain ⟨hres, hage⟩ := hcon
      apply hnz
      simp only [getZombieSessions, List.mem_map, List.mem_filter]
      exact ⟨r, ⟨hr, by simp [hres, hage]⟩, rfl⟩
    · intro hok
      refine ⟨hr, ?_⟩
      intro hz
      simp only [getZombieSessions, List.mem_map, List.mem_filter] at hz
      obtain ⟨r2, ⟨hr2, hpred⟩, hst⟩ := hz
      have : r2 = r := hinj hr2 hr hst
      subst this
      simp only [Bool.and_eq_true, Bool.not_eq_eq_eq_not, Bool.not_true, decide_eq_true_eq] at hpred
      rcases hok with hres | hage
      · rw [hres] at hpred
        exact absurd hpred.1 (by simp)
      · omega
  exact ⟨fun hres => hch.mpr (Or.inl hres), hch⟩

/-- Witness for C5 at a concrete input: clock 100000; a reserved session
last touched at 0 (age far past the threshold) survives the sweep. -/
theorem cleanOAuthDB_sweeps_exactly_old_nonreserved_witness :
    ({ state := "res", lastAccess := 0, reserved := true } ∈
        cleanOAuthDB [{ state := "old", lastAccess := 0 },
                      { state := "res", lastAccess := 0, reserved := true },
                      { state := "new", lastAccess := 90000 }] 100000)
    ∧ (({ state := "res", lastAccess := 0, reserved := true } : SessionRow) ∈
        cleanOAuthDB [{ state := "old", lastAccess := 0 },
                      { state := "res", lastAccess := 0, reserved := true },
                      { state := "new", lastAccess := 90000 }] 100000
        ↔ ((true : Bool) = true ∨ (100000 : Int) - 0 ≤ 43200)) := by
  have h := cleanOAuthDB_sweeps_exactly_old_nonreserved
    [{ state := "old", lastAccess := 0 },
     { state := "res", lastAccess := 0, reserved := true },
     { state := "new", lastAccess := 90000 }] 100000
    { state := "res", lastAccess := 0, reserved := true } (by decide) (by simp)
  exact ⟨h.1 rfl, h.2⟩

/-- Python `str.replace(pat, rep)` on character lists: replaces every
non-overlapping occurrence left to right (the `pat ≠ []` guard only rules
out the empty pattern, which the sources never use). -/
def replaceAllListAux (pat rep : List Char) : Nat → List Char → List Char
  | _, [] => []
  | 0, s => s
  | Nat.succ f, c :: rest =>
    if List.isPrefixOf pat (c :: rest) ∧ pat ≠ [] then
      rep ++ replaceAllListAux pat rep f (List.drop (pat.length - 1) rest)
    else
      c :: replaceAllListAux pat rep f rest

def replaceAllList (pat rep s : List Char) : List Char :=
  replaceAllListAux pat rep s.length s

/-- Python `str.replace` on strings. -/
def pyReplace (s pat rep : String) : String :=
  String.mk (replaceAllList pat.data rep.data s.data)

/-- Python `re.search(pat + chr(36), s)` for a literal pattern, i.e. "ends
with". -/
def strEndsWith (s pat : String) : Bool :=
  List.isPrefixOf pat.data.reverse s.data.reverse

/-- Token dictionary as produced by the identity-provider adapter
(`OAuth2IdProvider.__parseTokens` key layout); `refreshToken = none` models
the absence of the `RefreshToken` key, which is what
`OAuthDB.__parse` tests with `'RefreshToken' not in parseDict['Tokens']`. -/
structure TokensDict where
  expiresIn : Int := 0
  tokenType : String := "bearer"
  accessToken : String := ""
  refreshToken : Option String := none
deriving DecidableEq, Repr

/-- User options dictionary (`UsrOptns`) of a parsed profile. -/
structure UsrOptns where
  uid : String := ""
  fullName : String := ""
  dn : String := ""
  groups : List String := []
deriving DecidableEq, Repr

/-- Result of the adapter `parseAuthResponse` as consumed by
`OAuthDB.__parse` (user options with the `sub`-derived ID, and the token
dictionary). -/
structure ParseDict where
  usrOptns : UsrOptns := {}
  tokens : TokensDict := {}
deriving DecidableEq, Repr

/-- Result of `OAuthDB.prepareUserParameters` as consumed by
`OAuthDB.__modifyUser`. -/
structure PreparedDict where
  username : String := ""
  nosupport : List String := []
  userExist : Bool := false
  usrOptns : UsrOptns := {}
deriving DecidableEq, Repr

/-- One outbound notification mail (recipient field as passed to
`NotificationClient().sendMail`). -/
structure Mail where
  recipient : String
  subject : String
  body : String
deriving DecidableEq, Repr

/-- Models `pprint.pformat` applied to a `UsrOptns` dictionary: a
deterministic rendering of the profile. -/
def pformatOptns (o : UsrOptns) : String :=
  "ID: " ++ o.uid ++ ", FullName: " ++ o.fullName ++ ", DN: " ++ o.dn ++
    ", Groups: " ++ String.intercalate ", " o.groups

/-- Models `json.dumps` of the reconciliation snapshot stored in `Comment`
before a second-flow redirect. -/
def jsonDumpsPrepared (pd : PreparedDict) : String :=
  "snapshot: " ++ pd.username ++ "/" ++ pformatOptns pd.usrOptns

/-- Result dictionary of `OAuthDB.__modifyUser`: the session status, the
`Notify` comment, the optional mail (subject, body) to send to the
administrators, plus a `committed` flag recording whether
`gCSAPI.commitChanges()` ran (i.e. whether the user database was actually
modified). -/
structure ModifyRes where
  status : String
  notify : String
  mailObj : Option (String × String) := none
  committed : Bool := false
deriving DecidableEq, Repr

/-- Embeds `OAuthDB.__modifyUser` (`OAuthDB.py:402-502`).  The apostrophe
of the source literal `VO's` is omitted; `pprint.pformat` is modelled by
`pformatOptns`; the configuration-service round trips
(`downloadCSData`, `modifyUser`, `commitChanges`,
`forceGlobalConfigurationUpdate`) are oracles, `csModify` returning whether
there was anything to merge. -/
def modifyUser (pd : PreparedDict) (idProvider : String) (sourceIdP : Option String)
    (mergeAllow : Bool) (csDownload : Except String Unit) (csModify : Except String Bool)
    (csCommit : Except String Unit) (csForce : Except String Unit) :
    Except String ModifyRes :=
  let subject := "[OAuthManager] User " ++ pd.username
  let body0 := "User " ++ pd.usrOptns.fullName ++ " was authenticated by " ++ idProvider
  let body1 := match sourceIdP with
    | some s => body0 ++ ", " ++ s
    | none => body0
  let notify0 :=
    if pd.nosupport ≠ [] then
      "\nAccording to the authentication information," ++
        " the user is a member of the following VOMS VOs unsupported by DIRAC:" ++
        "\n" ++ String.intercalate "\n" pd.nosupport
    else ""
  let body2 := body1 ++ notify0
  let notify :=
    if pd.nosupport ≠ [] then
      notify0 ++ "\nPlease contact with administrators to register it in DIRAC."
    else ""
  if pd.userExist = false ∧ pd.usrOptns.groups = [] then
    Except.ok
      { status := "visitor"
        notify := "We not found any registred DIRAC groups that mached with your profile. " ++
          "So, your profile has the same access that Visitor DIRAC user." ++
          (if notify ≠ "" then "\nOne more thing.. \n    " ++ notify else "") }
  else if pd.userExist = false ∧ pd.usrOptns.dn = "" then
    Except.ok
      { status := "visitor"
        notify := "No any user DN found. " ++
          "So, your profile has the same access that Visitor DIRAC user." ++
          (if notify ≠ "" then "\nOne more thing.. \n    " ++ notify else "") }
  else
    let subject2 := subject ++
      (if mergeAllow then (if pd.userExist then " modified." else " added.")
       else (if pd.userExist then " to be modified." else " to be added."))
    let body3 := body2 ++
      (if mergeAllow then
        "\nAuto updating of the user database is allowed." ++
          (if pd.userExist then " User " ++ pd.username ++ " modified,"
           else " New user " ++ pd.username ++ " added,")
       else
        "\n\nAuto updating of the user database is not allowed." ++
          (if pd.userExist then " User " ++ pd.username ++ " has to be modified,"
           else " New user " ++ pd.username ++ " to be added,"))
    let body4 := (body3 ++ "with the following information:\n" ++
      "\nUser name: " ++ pd.username ++ "\n" ++ "\nUser profile:\n") ++
      (pformatOptns pd.usrOptns ++
       ("\n\n------" ++
        "\n This is a notification from the DIRAC OAuthManager service, please do not reply.\n"))
    match csDownload with
    | .error e => .error e
    | .ok _ =>
      match csModify with
      | .error e => .error e
      | .ok changed =>
        if changed = false then
          .ok { status := "authed", notify := notify }
        else if mergeAllow = false then
          .ok { status := "authed and reported", notify := notify,
                mailObj := some (subject2, body4) }
        else
          match csCommit with
          | .error e => .error e
          | .ok _ =>
            match csForce with
            | .error e => .error e
            | .ok _ =>
              .ok { status := "authed", notify := notify,
                    mailObj := some (subject2, body4), committed := true }

/-- Pair of sessions updated by the status loops of
`OAuthDB.parseAuthResponse`
(`list(set([session, session.replace('_redirect', '')]))`). -/
def sessionPair (state : String) : List String :=
  if pyReplace state "_redirect" "" = state then [state]
  else [state, pyReplace state "_redirect" ""]

/-- Status/comment update applied to the session and its `_redirect` source
by `OAuthDB.parseAuthResponse` (both its failure loop, with status
`failed`, and its final success loop). -/
def setStatusSessions (st : Store) (state status msg : String) (now : Int) : Store :=
  (sessionPair state).foldl
    (fun acc s2 => dbUpdateSession acc s2 [("Status", .str status), ("Comment", .str msg)] now)
    st

/-- Outcome of `OAuthDB.__proxyProviderCheck`, abstracted at its call
boundary in `parseAuthResponse`: no proxy provider is configured (the check
is skipped), a second-flow redirect URL, a failure, or success with the
(possibly DN-enriched) prepared dictionary. -/
inductive PpOutcome where
  | noProxyProvider
  | redirect (url : String)
  | failed (msg : String)
  | ready (pd : PreparedDict)
deriving DecidableEq, Repr

/-- Successful result of `OAuthDB.parseAuthResponse`: the final
`S_OK` with `Messages`, or the second-flow redirect dictionary. -/
inductive DbOut where
  | messages (m : String)
  | redirect (url : String)
deriving DecidableEq, Repr

/-- Tail of `OAuthDB.parseAuthResponse` after `__parse` and the proxy
check: run `__modifyUser` on the final prepared dictionary, send the
notification mail (once per `dirac_admin` address) when one was produced,
and run the closing status loop on the session and its `_redirect`
source. -/
def runModifyStep (store3 : Store) (state : String) (now : Int) (idProvider : String)
    (sourceIdP : Option String) (mergeAllow : Bool)
    (csDownload : Except String Unit) (csModify : Except String Bool)
    (csCommit : Except String Unit) (csForce : Except String Unit)
    (adminEmails : List String) (sendRes : Except String Unit)
    (pdFinal : PreparedDict) : Except String DbOut × Store × List Mail × Bool :=
  match modifyUser pdFinal idProvider sourceIdP mergeAllow csDownload csModify
      csCommit csForce with
  | .error e =>
    ((Except.error e : Except String DbOut),
     setStatusSessions store3 state "failed" e now, ([] : List Mail), false)
  | .ok mres =>
    match mres.mailObj with
    | none =>
      ((Except.ok (DbOut.messages mres.notify) : Except String DbOut),
       setStatusSessions store3 state mres.status mres.notify now, ([] : List Mail),
       mres.committed)
    | some mo =>
      match sendRes with
      | .error e =>
        ((Except.error e : Except String DbOut),
         setStatusSessions store3 state "failed" e now, ([] : List Mail), false)
      | .ok _ =>
        ((Except.ok (DbOut.messages mres.notify) : Except String DbOut),
         setStatusSessions store3 state mres.status mres.notify now,
         adminEmails.map (fun a => { recipient := a, subject := mo.1, body := mo.2 }),
         mres.committed)

/-- Embeds `OAuthDB.parseAuthResponse` (`OAuthDB.py:169-231`) together with
its helper `__parse` (`OAuthDB.py:233-300`).  External collaborators are
oracles: `factoryRes` is `IdProviderFactory().getIdProvider`, `adapterRes`
the identity-provider `parseAuthResponse` (token exchange plus profile),
`prepareRes` the result of `prepareUserParameters` (including the
`_redirect` source-snapshot merge), `sourceIdP` the provider of the source
flow read by `__parse` for a `_redirect` session, `ppOutcome` the
`__proxyProviderCheck` boundary, `cs*` the configuration-service round
trips of `__modifyUser`, and `sendRes` mail delivery.  Returns the result,
the final store, the mails sent to `adminEmails`
(`Registry.getEmailsForGroup('dirac_admin')`), and whether the user
database was committed. -/
def dbParseAuthResponse (store : Store) (state : String) (now : Int)
    (factoryRes : Except String Unit)
    (adapterRes : Except String ParseDict)
    (prepareRes : Except String PreparedDict)
    (sourceIdP : Option String)
    (ppOutcome : PpOutcome)
    (mergeAllow : Bool)
    (csDownload : Except String Unit) (csModify : Except String Bool)
    (csCommit : Except String Unit) (csForce : Except String Unit)
    (adminEmails : List String) (sendRes : Except String Unit) :
    Except String DbOut × Store × List Mail × Bool :=
  let store1 := dbUpdateSession store state [("Status", .str "in progress")] now
  let idProvider := (match lookupRow store1 state with
    | some r => r.provider
    | none => "")
  let fail := fun (st : Store) (msg : String) =>
    ((Except.error msg : Except String DbOut),
     setStatusSessions st state "failed" msg now, ([] : List Mail), false)
  match factoryRes with
  | .error e => fail store1 e
  | .ok _ =>
  match adapterRes with
  | .error e => fail store1 e
  | .ok pdict =>
  match pdict.tokens.refreshToken with
  | none => fail store1 "No refresh token"
  | some rt =>
  let store2 := dbUpdateSession store1 state
    [("Sub", .str pdict.usrOptns.uid), ("ExpiresIn", .int pdict.tokens.expiresIn),
     ("TokenType", .str pdict.tokens.tokenType),
     ("AccessToken", .str pdict.tokens.accessToken),
     ("RefreshToken", .str rt)] now
  match prepareRes with
  | .error e => fail store2 e
  | .ok prepared =>
  let store3 := dbUpdateSession store2 state [("UserName", .str prepared.username)] now
  match ppOutcome with
  | .redirect url =>
    let store4 := dbUpdateSession store3 state
      [("Status", .str "in progress"), ("Comment", .str (jsonDumpsPrepared prepared))] now
    ((Except.ok (DbOut.redirect url) : Except String DbOut), store4, ([] : List Mail), false)
  | .failed msg => fail store3 msg
  | .noProxyProvider =>
    runModifyStep store3 state now idProvider sourceIdP mergeAllow csDownload csModify
      csCommit csForce adminEmails sendRes prepared
  | .ready pd2 =>
    runModifyStep store3 state now idProvider sourceIdP mergeAllow csDownload csModify
      csCommit csForce adminEmails sendRes pd2

theorem applyFields_statusComment (r0 : SessionRow) (v m : String) (now : Int) :
    applyFields r0 (updateSessionFields [("Status", .str v), ("Comment", .str m)] now)
      = { r0 with status := v, comment := m, lastAccess := now } := rfl

theorem mem_dbUpdateSession (store : Store) (state : String)
    (fields : List (String × FieldVal)) (now : Int) (r : SessionRow) :
    r ∈ dbUpdateSession store state fields now ↔
      ∃ r0 ∈ store,
        r = if r0.state = state then applyFields r0 (updateSessionFields fields now) else r0 := by
  simp only [dbUpdateSession, List.mem_map]
  constructor
  · rintro ⟨r0, h0, heq⟩
    exact ⟨r0, h0, heq.symm⟩
  · rintro ⟨r0, h0, heq⟩
    exact ⟨r0, h0, heq.symm⟩

theorem dbUpdate_statusComment (store : Store) (state v m : String) (now : Int)
    (r : SessionRow)
    (hr : r ∈ dbUpdateSession store state [("Status", .str v), ("Comment", .str m)] now)
    (hst : r.state = state) : r.status = v ∧ r.comment = m := by
  rw [mem_dbUpdateSession] at hr
  obtain ⟨r0, h0, heq⟩ := hr
  by_cases hc : r0.state = state
  · rw [if_pos hc] at heq
    subst heq
    rw [applyFields_statusComment]
    exact ⟨rfl, rfl⟩
  · rw [if_neg hc] at heq
    subst heq
    exact absurd hst hc

theorem setStatusSessions_sets (st : Store) (state v m : String) (now : Int) (r : SessionRow)
    (hr : r ∈ setStatusSessions st state v m now)
    (hstate : r.state = state ∨ r.state = pyReplace state "_redirect" "") :
    r.status = v ∧ r.comment = m := by
  unfold setStatusSessions sessionPair at hr
  by_cases hsp : pyReplace state "_redirect" "" = state
  · rw [if_pos hsp] at hr
    simp only [List.foldl_cons, List.foldl_nil] at hr
    have hst : r.state = state := by
      rcases hstate with h | h
      · exact h
      · rw [hsp] at h; exact h
    exact dbUpdate_statusComment _ _ _ _ _ _ hr hst
  · rw [if_neg hsp] at hr
    simp only [List.foldl_cons, List.foldl_nil] at hr
    rw [mem_dbUpdateSession] at hr
    obtain ⟨r1, h1, heq⟩ := hr
    by_cases hc : r1.state = pyReplace state "_redirect" ""
    · rw [if_pos hc] at heq
      subst heq
      rw [applyFields_statusComment]
      exact ⟨rfl, rfl⟩
    · rw [if_neg hc] at heq
      subst heq
      have hst : r.state = state := by
        rcases hstate with h | h
        · exact h
        · exact absurd h hc
      exact dbUpdate_statusComment _ _ _ _ _ _ h1 hst

/-- C9: when the identity-provider adapter parses the callback successfully
(`adapterRes = ok`) but the returned token dictionary has no `RefreshToken`
key, the store-level `parseAuthResponse` fails with exactly the error
`No refresh token`, sends no mail, and both the session and its `_redirect`
source session (when one is involved) are set to `Status = failed` with that
message as `Comment`. -/
theorem parseAuthResponse_fails_without_refresh_token
    (store : Store) (state : String) (now : Int) (pdict : ParseDict)
    (prepareRes : Except String PreparedDict) (sourceIdP : Option String)
    (ppOutcome : PpOutcome) (mergeAllow : Bool)
    (csDownload : Except String Unit) (csModify : Except String Bool)
    (csCommit : Except String Unit) (csForce : Except String Unit)
    (adminEmails : List String) (sendRes : Except String Unit)
    (hrt : pdict.tokens.refreshToken = none) :
    (dbParseAuthResponse store state now (.ok ()) (.ok pdict) prepareRes sourceIdP
      ppOutcome mergeAllow csDownload csModify csCommit csForce adminEmails sendRes).1
        = .error "No refresh token"
    ∧ (dbParseAuthResponse store state now (.ok ()) (.ok pdict) prepareRes sourceIdP
        ppOutcome mergeAllow csDownload csModify csCommit csForce adminEmails sendRes).2.2.1
        = []
    ∧ ∀ r ∈ (dbParseAuthResponse store state now (.ok ()) (.ok pdict) prepareRes sourceIdP
        ppOutcome mergeAllow csDownload csModify csCommit csForce adminEmails sendRes).2.1,
        (r.state = state ∨ r.state = pyReplace state "_redirect" "") →
        r.status = "failed" ∧ r.comment = "No refresh token" := by
  have hout : dbParseAuthResponse store state now (.ok ()) (.ok pdict) prepareRes sourceIdP
      ppOutcome mergeAllow csDownload csModify csCommit csForce adminEmails sendRes
      = (Except.error "No refresh token",
         setStatusSessions (dbUpdateSession store state [("Status", .str "in progress")] now)
           state "failed" "No refresh token" now, [], false) := by
    obtain ⟨uo, tok⟩ := pdict
    obtain ⟨tei, ttt, tat, trt⟩ := tok
    dsimp only at hrt
    subst hrt
    rfl
  rw [hout]
  refine ⟨rfl, rfl, ?_⟩
  intro r hr hst
  exact setStatusSessions_sets _ _ _ _ _ _ hr hst

/-- Witness for C9 at a concrete input: session `abc_redirect` with source
session `abc`; the adapter returns tokens without a `RefreshToken` key. -/
theorem parseAuthResponse_fails_without_refresh_token_witness :
    (dbParseAuthResponse [{ state := "abc_redirect", provider := "prov" }, { state := "abc" }]
      "abc_redirect" 500 (.ok ()) (.ok { tokens := { refreshToken := none } }) (.ok {}) none
      PpOutcome.noProxyProvider false (.ok ()) (.ok true) (.ok ()) (.ok ()) [] (.ok ())).1
        = .error "No refresh token"
    ∧ (dbParseAuthResponse [{ state := "abc_redirect", provider := "prov" }, { state := "abc" }]
        "abc_redirect" 500 (.ok ()) (.ok { tokens := { refreshToken := none } }) (.ok {}) none
        PpOutcome.noProxyProvider false (.ok ()) (.ok true) (.ok ()) (.ok ()) [] (.ok ())).2.2.1
        = []
    ∧ ∀ r ∈ (dbParseAuthResponse [{ state := "abc_redirect", provider := "prov" }, { state := "abc" }]
        "abc_redirect" 500 (.ok ()) (.ok { tokens := { refreshToken := none } }) (.ok {}) none
        PpOutcome.noProxyProvider false (.ok ()) (.ok true) (.ok ()) (.ok ()) [] (.ok ())).2.1,
        (r.state = "abc_redirect" ∨ r.state = pyReplace "abc_redirect" "_redirect" "") →
        r.status = "failed" ∧ r.comment = "No refresh token" :=
  parseAuthResponse_fails_without_refresh_token
    [{ state := "abc_redirect", provider := "prov" }, { state := "abc" }]
    "abc_redirect" 500 { tokens := { refreshToken := none } } (.ok {}) none
    PpOutcome.noProxyProvider false (.ok ()) (.ok true) (.ok ()) (.ok ()) [] (.ok ()) rfl

theorem modifyUser_visitor (pd : PreparedDict) (idP : String) (sIdP : Option String)
    (mA : Bool) (csD : Except String Unit) (csM : Except String Bool)
    (csC csF : Except String Unit)
    (h1 : pd.userExist = false) (h2 : pd.usrOptns.groups = []) :
    (modifyUser pd idP sIdP mA csD csM csC csF).map
      (fun r => (r.status, r.mailObj, r.committed)) = .ok ("visitor", none, false) := by
  unfold modifyUser
  dsimp only
  rw [if_pos ⟨h1, h2⟩]
  rfl

theorem modifyUser_visitor_nodn (pd : PreparedDict) (idP : String) (sIdP : Option String)
    (mA : Bool) (csD : Except String Unit) (csM : Except String Bool)
    (csC csF : Except String Unit)
    (h1 : pd.userExist = false) (h3 : pd.usrOptns.groups ≠ []) (h4 : pd.usrOptns.dn = "") :
    (modifyUser pd idP sIdP mA csD csM csC csF).map
      (fun r => (r.status, r.mailObj, r.committed)) = .ok ("visitor", none, false) := by
  unfold modifyUser
  dsimp only
  rw [if_neg (fun hc => h3 hc.2), if_pos ⟨h1, h4⟩]
  rfl

theorem modifyUser_reported (pd : PreparedDict) (idP : String) (sIdP : Option String)
    (csC csF : Except String Unit)
    (h1 : pd.userExist = false) (h3 : pd.usrOptns.groups ≠ []) (h4 : pd.usrOptns.dn ≠ "") :
    (modifyUser pd idP sIdP false (.ok ()) (.ok true) csC csF).map
      (fun r => (r.status, r.committed, r.mailObj.isSome)) = .ok ("authed and reported", false, true)
    ∧ (∀ res subj body, modifyUser pd idP sIdP false (.ok ()) (.ok true) csC csF = .ok res →
        res.mailObj = some (subj, body) →
        ∃ pre post, body = pre ++ (pformatOptns pd.usrOptns ++ post)) := by
  constructor
  · unfold modifyUser
    dsimp only
    rw [if_neg (fun hc => h3 hc.2), if_neg (fun hc => h4 hc.2)]
    rfl
  · intro res subj body hmod hmo
    unfold modifyUser at hmod
    dsimp only at hmod
    rw [if_neg (fun hc => h3 hc.2), if_neg (fun hc => h4 hc.2)] at hmod
    rw [if_neg (show ¬(true = false) by decide)] at hmod
    rw [if_pos (show false = false from rfl)] at hmod
    rw [Except.ok.injEq] at hmod
    subst hmod
    dsimp only at hmo
    rw [Option.some.injEq, Prod.mk.injEq] at hmo
    obtain ⟨-, hbody⟩ := hmo
    subst hbody
    exact ⟨_, _, rfl⟩

/-- C3 (amended): for a successfully parsed callback whose external user ID
matches no registered local user (`userExist = false`), the store-level
reconciliation is not an error and does not commit an account when
auto-merge is disabled: with no matched DIRAC groups the session status
becomes `visitor` with no notification at all, and likewise with matched
groups but no DN available; with matched groups and a DN, one
notification mail per configured `dirac_admin` address is sent, each
containing the candidate user profile, and the status becomes
`authed and reported` — not a failure status.  (The claim as frozen says
`authed and notify`, which the code never produces; see the
counterexample.) -/
theorem parseAuthResponse_unknown_user_reconciliation
    (store : Store) (state : String) (now : Int) (rt : String) (pdict : ParseDict)
    (pd : PreparedDict) (sourceIdP : Option String)
    (csCommit csForce : Except String Unit) (adminEmails : List String)
    (out : Except String DbOut × Store × List Mail × Bool)
    (hrt : pdict.tokens.refreshToken = some rt)
    (hex : pd.userExist = false)
    (hout : out = dbParseAuthResponse store state now (.ok ()) (.ok pdict) (.ok pd)
      sourceIdP PpOutcome.noProxyProvider false (.ok ()) (.ok true) csCommit csForce
      adminEmails (.ok ())) :
    (pd.usrOptns.groups = [] →
      (∀ r ∈ out.2.1, (r.state = state ∨ r.state = pyReplace state "_redirect" "") →
          r.status = "visitor")
      ∧ out.2.2.1 = [] ∧ out.2.2.2 = false)
    ∧ (pd.usrOptns.groups ≠ [] → pd.usrOptns.dn = "" →
      (∀ r ∈ out.2.1, (r.state = state ∨ r.state = pyReplace state "_redirect" "") →
          r.status = "visitor")
      ∧ out.2.2.1 = [] ∧ out.2.2.2 = false)
    ∧ (pd.usrOptns.groups ≠ [] → pd.usrOptns.dn ≠ "" →
      (∀ r ∈ out.2.1, (r.state = state ∨ r.state = pyReplace state "_redirect" "") →
          r.status = "authed and reported")
      ∧ out.2.2.1.length = adminEmails.length
      ∧ (∀ ml ∈ out.2.2.1, ∃ pre post, ml.body = pre ++ (pformatOptns pd.usrOptns ++ post))
      ∧ out.2.2.2 = false) := by
  obtain ⟨uo2, tok⟩ := pdict
  obtain ⟨tei, ttt, tat, trt⟩ := tok
  dsimp only at hrt
  subst hrt
  obtain ⟨st3, idp, hred⟩ : ∃ st3 idp,
      dbParseAuthResponse store state now (.ok ()) (.ok ⟨uo2, ⟨tei, ttt, tat, some rt⟩⟩)
        (.ok pd) sourceIdP PpOutcome.noProxyProvider false (.ok ()) (.ok true)
        csCommit csForce adminEmails (.ok ())
        = runModifyStep st3 state now idp sourceIdP false (.ok ()) (.ok true)
            csCommit csForce adminEmails (.ok ()) pd := ⟨_, _, rfl⟩
  rw [hred] at hout
  subst hout
  refine ⟨?_, ?_, ?_⟩
  · intro hgr
    have hm := modifyUser_visitor pd idp sourceIdP false (.ok ()) (.ok true)
      csCommit csForce hex hgr
    cases hmm : modifyUser pd idp sourceIdP false (.ok ()) (.ok true) csCommit csForce with
    | error e => rw [hmm] at hm; simp [Except.map] at hm
    | ok res =>
      rw [hmm] at hm
      simp only [Except.map, Except.ok.injEq, Prod.mk.injEq] at hm
      obtain ⟨hs, hmo, hc⟩ := hm
      unfold runModifyStep
      rw [hmm]
      simp only [hmo]
      refine ⟨?_, by trivial, hc⟩
      intro r hr hst
      have := setStatusSessions_sets st3 state res.status res.notify now r hr hst
      rw [hs] at this
      exact this.1
  · intro hgr hdn0
    have hm := modifyUser_visitor_nodn pd idp sourceIdP false (.ok ()) (.ok true)
      csCommit csForce hex hgr hdn0
    cases hmm : modifyUser pd idp sourceIdP false (.ok ()) (.ok true) csCommit csForce with
    | error e => rw [hmm] at hm; simp [Except.map] at hm
    | ok res =>
      rw [hmm] at hm
      simp only [Except.map, Except.ok.injEq, Prod.mk.injEq] at hm
      obtain ⟨hs, hmo, hc⟩ := hm
      unfold runModifyStep
      rw [hmm]
      simp only [hmo]
      refine ⟨?_, by trivial, hc⟩
      intro r hr hst
      have := setStatusSessions_sets st3 state res.status res.notify now r hr hst
      rw [hs] at this
      exact this.1
  · intro hgr hdn
    obtain ⟨hm, hbody⟩ := modifyUser_reported pd idp sourceIdP csCommit csForce hex hgr hdn
    cases hmm : modifyUser pd idp sourceIdP false (.ok ()) (.ok true) csCommit csForce with
    | error e => rw [hmm] at hm; simp [Except.map] at hm
    | ok res =>
      rw [hmm] at hm
      simp only [Except.map, Except.ok.injEq, Prod.mk.injEq] at hm
      obtain ⟨hs, hc, hmos⟩ := hm
      cases hmo : res.mailObj with
      | none => rw [hmo] at hmos; simp at hmos
      | some mo =>
        unfold runModifyStep
        rw [hmm]
        simp only [hmo]
        refine ⟨?_, by rw [List.length_map], ?_, hc⟩
        · intro r hr hst
          have := setStatusSessions_sets st3 state res.status res.notify now r hr hst
          rw [hs] at this
          exact this.1
        · intro ml hml
          simp only [List.mem_map] at hml
          obtain ⟨a, -, hml⟩ := hml
          have hb : ml.body = mo.2 := by rw [← hml]
          rw [hb]
          exact hbody res mo.1 mo.2 hmm (by rw [hmo])

/-- Witness for the amended C3 at a concrete input: an unknown external
user `ext-123` with one matched group and a DN, auto-merge disabled, one
configured administrator address. -/
theorem parseAuthResponse_unknown_user_reconciliation_witness :
    (({ username := "newuser", userExist := false,
        usrOptns := { uid := "ext-123", fullName := "New User", dn := "/C=X",
                      groups := ["gg"] } } : PreparedDict).usrOptns.groups = [] →
      (∀ r ∈ (dbParseAuthResponse [{ state := "sess", provider := "prov" }] "sess" 100
          (.ok ()) (.ok { tokens := { refreshToken := some "rt" } })
          (.ok { username := "newuser", userExist := false,
                 usrOptns := { uid := "ext-123", fullName := "New User", dn := "/C=X",
                               groups := ["gg"] } })
          none PpOutcome.noProxyProvider false (.ok ()) (.ok true) (.ok ()) (.ok ())
          ["admin@example.org"] (.ok ())).2.1,
          (r.state = "sess" ∨ r.state = pyReplace "sess" "_redirect" "") →
          r.status = "visitor")
      ∧ (dbParseAuthResponse [{ state := "sess", provider := "prov" }] "sess" 100
          (.ok ()) (.ok { tokens := { refreshToken := some "rt" } })
          (.ok { username := "newuser", userExist := false,
                 usrOptns := { uid := "ext-123", fullName := "New User", dn := "/C=X",
                               groups := ["gg"] } })
          none PpOutcome.noProxyProvider false (.ok ()) (.ok true) (.ok ()) (.ok ())
          ["admin@example.org"] (.ok ())).2.2.1 = []
      ∧ (dbParseAuthResponse [{ state := "sess", provider := "prov" }] "sess" 100
          (.ok ()) (.ok { tokens := { refreshToken := some "rt" } })
          (.ok { username := "newuser", userExist := false,
                 usrOptns := { uid := "ext-123", fullName := "New User", dn := "/C=X",
                               groups := ["gg"] } })
          none PpOutcome.noProxyProvider false (.ok ()) (.ok true) (.ok ()) (.ok ())
          ["admin@example.org"] (.ok ())).2.2.2 = false)
    ∧ (({ username := "newuser", userExist := false,
          usrOptns := { uid := "ext-123", fullName := "New User", dn := "/C=X",
                        groups := ["gg"] } } : PreparedDict).usrOptns.groups ≠ [] →
        ({ username := "newuser", userExist := false,
           usrOptns := { uid := "ext-123", fullName := "New User", dn := "/C=X",
                         groups := ["gg"] } } : PreparedDict).usrOptns.dn = "" →
      (∀ r ∈ (dbParseAuthResponse [{ state := "sess", provider := "prov" }] "sess" 100
          (.ok ()) (.ok { tokens := { refreshToken := some "rt" } })
          (.ok { username := "newuser", userExist := false,
                 usrOptns := { uid := "ext-123", fullName := "New User", dn := "/C=X",
                               groups := ["gg"] } })
          none PpOutcome.noProxyProvider false (.ok ()) (.ok true) (.ok ()) (.ok ())
          ["admin@example.org"] (.ok ())).2.1,
          (r.state = "sess" ∨ r.state = pyReplace "sess" "_redirect" "") →
          r.status = "visitor")
      ∧ (dbParseAuthResponse [{ state := "sess", provider := "prov" }] "sess" 100
          (.ok ()) (.ok { tokens := { refreshToken := some "rt" } })
          (.ok { username := "newuser", userExist := false,
                 usrOptns := { uid := "ext-123", fullName := "New User", dn := "/C=X",
                               groups := ["gg"] } })
          none PpOutcome.noProxyProvider false (.ok ()) (.ok true) (.ok ()) (.ok ())
          ["admin@example.org"] (.ok ())).2.2.1 = []
      ∧ (dbParseAuthResponse [{ state := "sess", provider := "prov" }] "sess" 100
          (.ok ()) (.ok { tokens := { refreshToken := some "rt" } })
          (.ok { username := "newuser", userExist := false,
                 usrOptns := { uid := "ext-123", fullName := "New User", dn := "/C=X",
                               groups := ["gg"] } })
          none PpOutcome.noProxyProvider false (.ok ()) (.ok true) (.ok ()) (.ok ())
          ["admin@example.org"] (.ok ())).2.2.2 = false)
    ∧ (({ username := "newuser", userExist := false,
          usrOptns := { uid := "ext-123", fullName := "New User", dn := "/C=X",
                        groups := ["gg"] } } : PreparedDict).usrOptns.groups ≠ [] →
        ({ username := "newuser", userExist := false,
           usrOptns := { uid := "ext-123", fullName := "New User", dn := "/C=X",
                         groups := ["gg"] } } : PreparedDict).usrOptns.dn ≠ "" →
      (∀ r ∈ (dbParseAuthResponse [{ state := "sess", provider := "prov" }] "sess" 100
          (.ok ()) (.ok { tokens := { refreshToken := some "rt" } })
          (.ok { username := "newuser", userExist := false,
                 usrOptns := { uid := "ext-123", fullName := "New User", dn := "/C=X",
                               groups := ["gg"] } })
          none PpOutcome.noProxyProvider false (.ok ()) (.ok true) (.ok ()) (.ok ())
          ["admin@example.org"] (.ok ())).2.1,
          (r.state = "sess" ∨ r.state = pyReplace "sess" "_redirect" "") →
          r.status = "authed and reported")
      ∧ (dbParseAuthResponse [{ state := "sess", provider := "prov" }] "sess" 100
          (.ok ()) (.ok { tokens := { refreshToken := some "rt" } })
          (.ok { username := "newuser", userExist := false,
                 usrOptns := { uid := "ext-123", fullName := "New User", dn := "/C=X",
                               groups := ["gg"] } })
          none PpOutcome.noProxyProvider false (.ok ()) (.ok true) (.ok ()) (.ok ())
          ["admin@example.org"] (.ok ())).2.2.1.length = ["admin@example.org"].length
      ∧ (∀ ml ∈ (dbParseAuthResponse [{ state := "sess", provider := "prov" }] "sess" 100
          (.ok ()) (.ok { tokens := { refreshToken := some "rt" } })
          (.ok { username := "newuser", userExist := false,
                 usrOptns := { uid := "ext-123", fullName := "New User", dn := "/C=X",
                               groups := ["gg"] } })
          none PpOutcome.noProxyProvider false (.ok ()) (.ok true) (.ok ()) (.ok ())
          ["admin@example.org"] (.ok ())).2.2.1, ∃ pre post,
          ml.body = pre ++ (pformatOptns { uid := "ext-123", fullName := "New User",
                                           dn := "/C=X", groups := ["gg"] } ++ post))
      ∧ (dbParseAuthResponse [{ state := "sess", provider := "prov" }] "sess" 100
          (.ok ()) (.ok { tokens := { refreshToken := some "rt" } })
          (.ok { username := "newuser", userExist := false,
                 usrOptns := { uid := "ext-123", fullName := "New User", dn := "/C=X",
                               groups := ["gg"] } })
          none PpOutcome.noProxyProvider false (.ok ()) (.ok true) (.ok ()) (.ok ())
          ["admin@example.org"] (.ok ())).2.2.2 = false) :=
  parseAuthResponse_unknown_user_reconciliation
    [{ state := "sess", provider := "prov" }] "sess" 100 "rt"
    { tokens := { refreshToken := some "rt" } }
    { username := "newuser", userExist := false,
      usrOptns := { uid := "ext-123", fullName := "New User", dn := "/C=X",
                    groups := ["gg"] } }
    none (.ok ()) (.ok ()) ["admin@example.org"] _ rfl rfl rfl

/-- Counterexample to C3 as frozen: on a successfully parsed callback for
unknown external user `ext-123` (one matched group, a DN, auto-merge
disabled), the session status written by the store-level flow is
`authed and reported` — not the claimed `authed and notify` (nor the
`visitor` alternative). -/
theorem parseAuthResponse_unknown_user_notify_counterexample :
    ((dbParseAuthResponse [{ state := "sess", provider := "prov" }] "sess" 100
        (.ok ()) (.ok { tokens := { refreshToken := some "rt" } })
        (.ok { username := "newuser", userExist := false,
               usrOptns := { uid := "ext-123", fullName := "New User", dn := "/C=X",
                             groups := ["gg"] } })
        none PpOutcome.noProxyProvider false (.ok ()) (.ok true) (.ok ()) (.ok ())
        ["admin@example.org"] (.ok ())).2.1.map (fun r => r.status))
      = ["authed and reported"]
    ∧ "authed and reported" ≠ "authed and notify"
    ∧ "authed and reported" ≠ "visitor" :=
  ⟨rfl, by decide, by decide⟩

theorem applyFields_statusOnly (r0 : SessionRow) (v : String) (now : Int) :
    applyFields r0 (updateSessionFields [("Status", .str v)] now)
      = { r0 with status := v, lastAccess := now } := rfl

theorem dbUpdate_status (store : Store) (state v : String) (now : Int) (r : SessionRow)
    (hr : r ∈ dbUpdateSession store state [("Status", .str v)] now)
    (hst : r.state = state) : r.status = v := by
  rw [mem_dbUpdateSession] at hr
  obtain ⟨r0, h0, heq⟩ := hr
  by_cases hc : r0.state = state
  · rw [if_pos hc] at heq
    subst heq
    rw [applyFields_statusOnly]
  · rw [if_neg hc] at heq
    subst heq
    exact absurd hst hc

theorem lookupRow_dbUpdateSession (store : Store) (s : String)
    (fields : List (String × FieldVal)) (now : Int) :
    lookupRow (dbUpdateSession store s fields now) s
      = Option.map (fun r => applyFields r (updateSessionFields fields now)) (lookupRow store s) := by
  unfold lookupRow dbUpdateSession
  induction store with
  | nil => rfl
  | cons r rest ih =>
    by_cases hc : r.state = s
    · simp [List.find?_cons, if_pos hc, applyFields_state, hc]
    · simp [List.find?_cons, if_neg hc, applyFields_state, hc, ih]

/-- Modelled from the spec: the DB-level `getSessionStatus` used by the
service handler is not under `src/` (only its caller
`OAuthManagerHandler.export_parseAuthResponse` is); per the spec
(`getSessionStatus(session) -> record|Error`) it returns the `Status`
column of the session row, or an error when no such session exists. -/
def getSessionStatus (store : Store) (s : String) : Except String String :=
  match lookupRow store s with
  | none => .error ("No " ++ s ++ " session found.")
  | some row => .ok row.status

/-- Embeds `OAuthManagerHandler.export_parseAuthResponse`
(`OAuthManagerHandler.py:403-440`): read the session status; reject with
`The current session has already been submitted.` unless it is `prepared`
or `in progress`; otherwise move the session to `finishing` and run the
parse body (`__parseAuthResponse`, abstracted as `parseBody`, which
receives the store with the session already in `finishing`); a failing
body marks the session `failed` with the message as comment. -/
def exportParseAuthResponse {α : Type} (store : Store) (s : String) (now : Int)
    (parseBody : Store → Except String α × Store) : Except String α × Store :=
  match getSessionStatus store s with
  | .error e =>
    (.error e, dbUpdateSession store s [("Status", .str "failed"), ("Comment", .str e)] now)
  | .ok st =>
    if st ∉ ["prepared", "in progress"] then
      (.error "The current session has already been submitted.", store)
    else
      let store1 := dbUpdateSession store s [("Status", .str "finishing")] now
      match parseBody store1 with
      | (.error m, st2) =>
        (.error m, dbUpdateSession st2 s [("Status", .str "failed"), ("Comment", .str m)] now)
      | (.ok v, st2) => (.ok v, st2)

/-- C1: for a session present in the store, the service-level
`parseAuthResponse` is rejected with the
`The current session has already been submitted.` error exactly when the
session status is outside `prepared` / `in progress` (the rejection leaves
the store untouched; `hbody` states that the parse body itself never
produces that literal message); when the check passes, the store handed to
the parse body already has the session in the exclusive `finishing` state,
so a second parse call issued against that intermediate store is rejected
with the same error, whatever its own parse body. -/
theorem export_parseAuthResponse_gate {α : Type} (store : Store) (s : String) (now : Int)
    (parseBody : Store → Except String α × Store) (row : SessionRow)
    (hrow : lookupRow store s = some row)
    (hbody : ∀ st2 m,
      parseBody (dbUpdateSession store s [("Status", .str "finishing")] now) = (.error m, st2) →
      m ≠ "The current session has already been submitted.") :
    ((exportParseAuthResponse store s now parseBody).1
        = .error "The current session has already been submitted."
      ↔ row.status ∉ ["prepared", "in progress"])
    ∧ (row.status ∉ ["prepared", "in progress"] →
        (exportParseAuthResponse store s now parseBody).2 = store)
    ∧ (row.status ∈ ["prepared", "in progress"] →
        (∀ r ∈ dbUpdateSession store s [("Status", .str "finishing")] now,
            r.state = s → r.status = "finishing")
        ∧ (∀ parseBody2 : Store → Except String α × Store,
            (exportParseAuthResponse
                (dbUpdateSession store s [("Status", .str "finishing")] now) s now parseBody2).1
              = .error "The current session has already been submitted.")) := by
  have hstat : getSessionStatus store s = .ok row.status := by
    unfold getSessionStatus
    rw [hrow]
  by_cases hmem : row.status ∈ ["prepared", "in progress"]
  · have hrun : exportParseAuthResponse store s now parseBody
        = (match parseBody (dbUpdateSession store s [("Status", .str "finishing")] now) with
           | (.error m, st2) =>
             ((.error m : Except String α),
              dbUpdateSession st2 s [("Status", .str "failed"), ("Comment", .str m)] now)
           | (.ok v, st2) => (.ok v, st2)) := by
      unfold exportParseAuthResponse
      rw [hstat]
      exact if_neg (fun hn => hn hmem)
    refine ⟨?_, fun hno => absurd hmem hno, fun _ => ⟨?_, ?_⟩⟩
    · constructor
      · intro herr
        rw [hrun] at herr
        cases hp : parseBody (dbUpdateSession store s [("Status", .str "finishing")] now) with
        | mk res st2 =>
          rw [hp] at herr
          cases res with
          | error m =>
            simp only [Except.error.injEq] at herr
            exact absurd herr (hbody st2 m hp)
          | ok v => simp at herr
      · intro hno
        exact absurd hmem hno
    · intro r hr hst
      exact dbUpdate_status _ _ _ _ _ hr hst
    · intro parseBody2
      have hlook2 : lookupRow (dbUpdateSession store s [("Status", .str "finishing")] now) s
          = some (applyFields row (updateSessionFields [("Status", .str "finishing")] now)) := by
        rw [lookupRow_dbUpdateSession, hrow]
        rfl
      have hstat2 : getSessionStatus
          (dbUpdateSession store s [("Status", .str "finishing")] now) s = .ok "finishing" := by
        unfold getSessionStatus
        rw [hlook2, applyFields_statusOnly]
      unfold exportParseAuthResponse
      rw [hstat2]
      simp only [if_pos (by decide : ("finishing" : String) ∉ ["prepared", "in progress"])]
  · have hrun : exportParseAuthResponse store s now parseBody
        = (.error "The current session has already been submitted.", store) := by
      unfold exportParseAuthResponse
      rw [hstat]
      exact if_pos hmem
    rw [hrun]
    exact ⟨⟨fun _ => hmem, fun _ => rfl⟩, fun _ => rfl, fun hyes => absurd hyes hmem⟩

/-- Witness for C1 at a concrete input: a session in status `authed` is
rejected; the same theorem instantiated also covers the `prepared` case at
other inputs. -/
theorem export_parseAuthResponse_gate_witness :
    ((exportParseAuthResponse [{ state := "s1", status := "authed" }] "s1" 7
        (fun st => ((Except.ok "done" : Except String String), st))).1
        = .error "The current session has already been submitted."
      ↔ ({ state := "s1", status := "authed" } : SessionRow).status ∉ ["prepared", "in progress"])
    ∧ (({ state := "s1", status := "authed" } : SessionRow).status ∉ ["prepared", "in progress"] →
        (exportParseAuthResponse [{ state := "s1", status := "authed" }] "s1" 7
          (fun st => ((Except.ok "done" : Except String String), st))).2
          = [{ state := "s1", status := "authed" }])
    ∧ (({ state := "s1", status := "authed" } : SessionRow).status ∈ ["prepared", "in progress"] →
        (∀ r ∈ dbUpdateSession [{ state := "s1", status := "authed" }] "s1"
            [("Status", .str "finishing")] 7, r.state = "s1" → r.status = "finishing")
        ∧ (∀ parseBody2 : Store → Except String String × Store,
            (exportParseAuthResponse
                (dbUpdateSession [{ state := "s1", status := "authed" }] "s1"
                  [("Status", .str "finishing")] 7) "s1" 7 parseBody2).1
              = .error "The current session has already been submitted.")) :=
  export_parseAuthResponse_gate [{ state := "s1", status := "authed" }] "s1" 7
    (fun st => ((Except.ok "done" : Except String String), st))
    { state := "s1", status := "authed" } rfl (fun st2 m h => by simp at h)

/-- Parsed-callback dictionary as consumed by
`OAuthManagerHandler.__parseAuthResponse` (only the external user ID, the
`sub`-derived `UsrOptns['ID']`, steers the control flow). -/
structure HandlerParseDict where
  userID : String
deriving DecidableEq, Repr

/-- Result dictionary of `OAuthManagerHandler.__parseAuthResponse`
(`S_OK({'Status': ..., 'Comment': ..., 'UserProfile': ..., 'Provider': ...})`,
the profile component is carried by the abstract parse dictionary). -/
structure HandlerParseOut where
  status : String
  comment : String
  provider : String
deriving DecidableEq, Repr

/-- Embeds `OAuthManagerHandler.__parseAuthResponse`
(`OAuthManagerHandler.py:442-510`).  Oracles: `provParse` is the adapter
`parseAuthResponse`; `getUsername` is `Registry.getUsernameForID`;
`isReserved` / `getReserved` are the DB helpers `isReservedSession` and
`getReservedSessions` (their implementations are not under `src/`; only
their boolean/list answers steer this handler, so they enter as abstract
query answers); `submitNew` is the adapter `submitNewSession`;
`registerRes` the outcome of `__registerNewUser`.  The third component of
the result logs the identifiers handed to `submitNewSession`. -/
def handlerParseAuthResponse (store : Store) (s : String) (now : Int)
    (provParse : Except String HandlerParseDict)
    (getUsername : String → Option String)
    (isReserved : String → Bool)
    (getReserved : String → String → List String)
    (submitNew : String → Except String String)
    (registerRes : Except String Unit)
    (authAPI : String) :
    Except String HandlerParseOut × Store × List String :=
  match lookupRow store s with
  | none => (.error ("No " ++ s ++ " session found."), store, [])
  | some row =>
    let provider := row.provider
    match provParse with
    | .error e => (.error e, store, [])
    | .ok pdict =>
      match getUsername pdict.userID with
      | none =>
        let comment0 := "%s ID is not registred in the DIRAC."
        let comment1 := match registerRes with
          | .ok _ => comment0 ++ " Administrators have been notified about you."
          | .error _ => comment0
        let comment := comment1 ++ " Please, contact the DIRAC administrators."
        let store2 := dbUpdateSession store s [("Status", .str "failed")] now
        (.ok { status := "failed", comment := comment, provider := provider }, store2, [])
      | some _ =>
        if isReserved s = false then
          match getReserved pdict.userID provider with
          | [] =>
            match submitNew ("reserved_" ++ s) with
            | .error e => (.error e, store, ["reserved_" ++ s])
            | .ok newSess =>
              let comment := authAPI ++ "/auth/" ++ newSess
              let store2 := dbUpdateSession store s [("Status", .str "redirect")] now
              (.ok { status := "redirect", comment := comment, provider := provider },
               store2, ["reserved_" ++ s])
          | _ :: _ =>
            let store2 := dbUpdateSession store s [("Status", .str "authed")] now
            (.ok { status := "authed", comment := "", provider := provider }, store2, [])
        else
          let store1 := dbUpdateSession store (pyReplace s "reserved_" "")
            [("Status", .str "authed")] now
          let store2 := dbUpdateSession store1 s [("Status", .str "authed")] now
          (.ok { status := "authed", comment := "", provider := provider }, store2, [])

/-- C2: for a parsed callback whose external user ID maps to a known local
user: (i) when the session is not reserved and no reserved session exists
for the (externalUserID, provider) pair, the handler submits a nested flow
whose identifier is `reserved_` prepended to the session identifier and
returns status `redirect` with the new flow URL; (ii) when a reserved
session for the pair exists, it returns status `authed` and submits
nothing; (iii) when the parsed session is itself the reserved one
(`s = "reserved_" ++ t`, with `hrep` stating that removing `reserved_`
yields exactly the originating identifier `t`), the `authed` status is
also written to the originating session `t`. -/
theorem handler_parse_reserved_flow (store : Store) (s t : String) (now : Int)
    (pdict : HandlerParseDict)
    (getUsername : String → Option String) (isReserved : String → Bool)
    (getReserved : String → String → List String)
    (submitNew : String → Except String String) (registerRes : Except String Unit)
    (authAPI : String) (row : SessionRow) (uname : String)
    (hrow : lookupRow store s = some row)
    (huser : getUsername pdict.userID = some uname) :
    (isReserved s = false → getReserved pdict.userID row.provider = [] →
      ∀ ns, submitNew ("reserved_" ++ s) = .ok ns →
      handlerParseAuthResponse store s now (.ok pdict) getUsername isReserved getReserved
          submitNew registerRes authAPI
        = (.ok { status := "redirect", comment := authAPI ++ "/auth/" ++ ns,
                 provider := row.provider },
           dbUpdateSession store s [("Status", .str "redirect")] now, ["reserved_" ++ s]))
    ∧ (isReserved s = false → ∀ x xs, getReserved pdict.userID row.provider = x :: xs →
      handlerParseAuthResponse store s now (.ok pdict) getUsername isReserved getReserved
          submitNew registerRes authAPI
        = (.ok { status := "authed", comment := "", provider := row.provider },
           dbUpdateSession store s [("Status", .str "authed")] now, []))
    ∧ (isReserved s = true → s = "reserved_" ++ t → pyReplace s "reserved_" "" = t →
      (handlerParseAuthResponse store s now (.ok pdict) getUsername isReserved getReserved
          submitNew registerRes authAPI).1
        = .ok { status := "authed", comment := "", provider := row.provider }
      ∧ ∀ r ∈ (handlerParseAuthResponse store s now (.ok pdict) getUsername isReserved
          getReserved submitNew registerRes authAPI).2.1,
          (r.state = t ∨ r.state = s) → r.status = "authed") := by
  refine ⟨?_, ?_, ?_⟩
  · intro hres hresv ns hsub
    unfold handlerParseAuthResponse
    rw [hrow]
    simp only [huser, hres, hresv, hsub, if_true]
  · intro hres x xs hresv
    unfold handlerParseAuthResponse
    rw [hrow]
    simp only [huser, hres, hresv, if_true]
  · intro hres hseq hrep
    have hne : t ≠ s := by
      intro he
      have hlen := congrArg String.length (he.trans hseq)
      rw [String.length_append] at hlen
      rw [show ("reserved_" : String).length = 9 from rfl] at hlen
      omega
    have hrun : handlerParseAuthResponse store s now (.ok pdict) getUsername isReserved
        getReserved submitNew registerRes authAPI
        = (.ok { status := "authed", comment := "", provider := row.provider },
           dbUpdateSession
             (dbUpdateSession store (pyReplace s "reserved_" "") [("Status", .str "authed")] now)
             s [("Status", .str "authed")] now, []) := by
      unfold handlerParseAuthResponse
      rw [hrow]
      simp only [huser, hres, Bool.true_eq_false, if_false]
    rw [hrun]
    refine ⟨rfl, ?_⟩
    intro r hr hst
    rcases hst with hstT | hstS
    · rw [hrep] at hr
      rw [mem_dbUpdateSession] at hr
      obtain ⟨r1, h1, heq⟩ := hr
      by_cases hc : r1.state = s
      · rw [if_pos hc] at heq
        subst heq
        rw [applyFields_state] at hstT
        exact absurd (hstT ▸ hc : t = s) hne
      · rw [if_neg hc] at heq
        subst heq
        exact dbUpdate_status _ _ _ _ _ h1 hstT
    · exact dbUpdate_status _ _ _ _ _ hr hstS

/-- Witness for C2 at a concrete input: reserved session `reserved_xyz9`
of provider `prov` for user `u1`; the nested-flow branches are exercised
through the same theorem instantiated on the `xyz9` base session. -/
theorem handler_parse_reserved_flow_witness :
    ((fun _ : String => false) "xyz9" = false →
      (fun _ _ : String => ([] : List String)) "ext-1" "prov" = [] →
      ∀ ns, (fun sid : String => (Except.ok sid : Except String String)) ("reserved_" ++ "xyz9")
          = .ok ns →
      handlerParseAuthResponse [{ state := "xyz9", provider := "prov" }] "xyz9" 3
          (.ok { userID := "ext-1" }) (fun _ => some "u1") (fun _ => false)
          (fun _ _ => []) (fun sid => Except.ok sid) (.ok ()) "https://api"
        = (.ok { status := "redirect", comment := "https://api" ++ "/auth/" ++ ns,
                 provider := "prov" },
           dbUpdateSession [{ state := "xyz9", provider := "prov" }] "xyz9"
             [("Status", .str "redirect")] 3, ["reserved_" ++ "xyz9"]))
    ∧ ((fun _ : String => false) "xyz9" = false →
      ∀ x xs, (fun _ _ : String => ([] : List String)) "ext-1" "prov" = x :: xs →
      handlerParseAuthResponse [{ state := "xyz9", provider := "prov" }] "xyz9" 3
          (.ok { userID := "ext-1" }) (fun _ => some "u1") (fun _ => false)
          (fun _ _ => []) (fun sid => Except.ok sid) (.ok ()) "https://api"
        = (.ok { status := "authed", comment := "", provider := "prov" },
           dbUpdateSession [{ state := "xyz9", provider := "prov" }] "xyz9"
             [("Status", .str "authed")] 3, []))
    ∧ ((fun _ : String => false) "xyz9" = true → "xyz9" = "reserved_" ++ "q" →
        pyReplace "xyz9" "reserved_" "" = "q" →
      (handlerParseAuthResponse [{ state := "xyz9", provider := "prov" }] "xyz9" 3
          (.ok { userID := "ext-1" }) (fun _ => some "u1") (fun _ => false)
          (fun _ _ => []) (fun sid => Except.ok sid) (.ok ()) "https://api").1
        = .ok { status := "authed", comment := "", provider := "prov" }
      ∧ ∀ r ∈ (handlerParseAuthResponse [{ state := "xyz9", provider := "prov" }] "xyz9" 3
          (.ok { userID := "ext-1" }) (fun _ => some "u1") (fun _ => false)
          (fun _ _ => []) (fun sid => Except.ok sid) (.ok ()) "https://api").2.1,
          (r.state = "q" ∨ r.state = "xyz9") → r.status = "authed") :=
  handler_parse_reserved_flow [{ state := "xyz9", provider := "prov" }] "xyz9" "q" 3
    { userID := "ext-1" } (fun _ => some "u1") (fun _ => false) (fun _ _ => [])
    (fun sid => Except.ok sid) (.ok ()) "https://api"
    { state := "xyz9", provider := "prov" } "u1" rfl rfl

/-- Relevant client fields of the `OAuth2` object
(`OAuth2.py` / `OIDCClient.__init__`); the empty string models a Python
`None`/absent (falsy) value. -/
structure OAuth2Config where
  name : String := ""
  token_endpoint : String := ""
  client_id : String := ""
  client_secret : String := ""
  redirect_uri : String := ""
deriving DecidableEq, Repr

/-- Grant type selected by one `fetchToken` call. -/
inductive GrantType where
  | authorizationCode
  | refreshGrant
deriving DecidableEq, Repr

/-- Handling of the token-endpoint HTTP response in `OAuth2.fetchToken`
(`OAuth2.py:296-302`): a non-200 status is returned as the error first;
only then is the body checked for the `access_token` key. -/
def tokenHttpResult (resp : Nat × List (String × String)) :
    Except String (List (String × String)) :=
  if resp.1 ≠ 200 then .error (toString resp.1)
  else if ((resp.2.map Prod.fst).contains "access_token") = false then
    .error "No expected response."
  else .ok resp.2

/-- Embeds `OAuth2.fetchToken` (`OAuth2.py:275-302`).  `code` and
`refreshTok` are the two optional grant inputs (empty string = absent, as
Python truthiness); `http` maps the request URL to the provider response
`(status code, JSON body as a key/value list)`.  Besides the result, the
selected grant type and the URL actually posted are returned. -/
def fetchToken (cfg : OAuth2Config) (code refreshTok : String)
    (http : String → Nat × List (String × String)) :
    Except String (List (String × String)) × Option GrantType × Option String :=
  if cfg.token_endpoint = "" then
    (.error ("Not found token_endpoint for " ++ cfg.name ++ " provider"), none, none)
  else
    let base := cfg.token_endpoint ++ "?client_id=" ++ cfg.client_id ++ "&client_secret=" ++
      cfg.client_secret ++ "&access_type=offline&prompt=consent"
    if code ≠ "" then
      if cfg.redirect_uri = "" then
        (.error ("Not found redirect_uri for " ++ cfg.name ++ " provider"), none, none)
      else
        let url := base ++ "&grant_type=authorization_code&code=" ++ code ++
          "&redirect_uri=" ++ cfg.redirect_uri
        (tokenHttpResult (http url), some GrantType.authorizationCode, some url)
    else if refreshTok ≠ "" then
      let url := base ++ "&grant_type=refresh_token&refresh_token=" ++ refreshTok
      (tokenHttpResult (http url), some GrantType.refreshGrant, some url)
    else
      (.error "No get any authorization code or refresh token", none, none)

/-- C6 (amended): with a configured token endpoint, exactly one grant type
is used per `fetchToken` call — `authorization_code` whenever a code is
supplied (also when a refresh token is supplied alongside),
`refresh_token` when only a refresh token is supplied; the call fails with
the missing-grant-input error when neither is supplied and with the
missing-redirect-URI error when a code is supplied without a configured
redirect URI; a provider response lacking the `access_token` field yields
the malformed-provider-response error (`No expected response.`) when the
HTTP status is 200, while a non-200 status yields an error carrying the
status code instead — the status check precedes the body check.  (The
claim as frozen asserts the malformed-response error regardless of HTTP
status; see the counterexample.) -/
theorem fetchToken_grant_selection_and_errors (cfg : OAuth2Config) (code refreshTok : String)
    (http : String → Nat × List (String × String))
    (hendp : cfg.token_endpoint ≠ "") :
    (code ≠ "" → cfg.redirect_uri ≠ "" →
      (fetchToken cfg code refreshTok http).2.1 = some GrantType.authorizationCode)
    ∧ (code = "" → refreshTok ≠ "" →
      (fetchToken cfg code refreshTok http).2.1 = some GrantType.refreshGrant)
    ∧ (code = "" → refreshTok = "" →
      (fetchToken cfg code refreshTok http).1
        = .error "No get any authorization code or refresh token"
      ∧ (fetchToken cfg code refreshTok http).2.1 = none)
    ∧ (code ≠ "" → cfg.redirect_uri = "" →
      (fetchToken cfg code refreshTok http).1
        = .error ("Not found redirect_uri for " ++ cfg.name ++ " provider")
      ∧ (fetchToken cfg code refreshTok http).2.1 = none)
    ∧ (∀ url, (fetchToken cfg code refreshTok http).2.2 = some url →
      ((http url).1 = 200 → ((http url).2.map Prod.fst).contains "access_token" = false →
        (fetchToken cfg code refreshTok http).1 = .error "No expected response.")
      ∧ ((http url).1 ≠ 200 →
        (fetchToken cfg code refreshTok http).1 = .error (toString (http url).1))) := by
  unfold fetchToken
  rw [if_neg hendp]
  by_cases hcode : code ≠ ""
  · by_cases hred : cfg.redirect_uri = ""
    · simp only [if_pos hcode, if_pos hred]
      exact ⟨fun _ h => absurd hred h, fun h => absurd h hcode,
        fun h => absurd h hcode, fun _ _ => ⟨by trivial, by trivial⟩,
        fun url h => by simp at h⟩
    · simp only [if_pos hcode, if_neg hred]
      refine ⟨fun _ _ => by trivial, fun h => absurd h hcode, fun h => absurd h hcode,
        fun _ h => absurd h hred, ?_⟩
      intro url hurl
      simp only [Option.some.injEq] at hurl
      subst hurl
      constructor
      · intro h200 hnotok
        unfold tokenHttpResult
        rw [if_neg (by simp [h200]), if_pos hnotok]
      · intro hnot200
        unfold tokenHttpResult
        rw [if_pos hnot200]
  · push_neg at hcode
    by_cases href : refreshTok ≠ ""
    · simp only [hcode, if_neg (by simp : ¬("" : String) ≠ ""), if_pos href]
      refine ⟨fun h _ => absurd rfl h, fun _ _ => by trivial,
        fun _ h => absurd h href, fun h _ => absurd rfl h, ?_⟩
      intro url hurl
      simp only [Option.some.injEq] at hurl
      subst hurl
      constructor
      · intro h200 hnotok
        unfold tokenHttpResult
        rw [if_neg (by simp [h200]), if_pos hnotok]
      · intro hnot200
        unfold tokenHttpResult
        rw [if_pos hnot200]
    · push_neg at href
      simp only [hcode, href, if_neg (by simp : ¬("" : String) ≠ "")]
      exact ⟨fun h _ => absurd rfl h, fun _ h => absurd rfl h,
        fun _ _ => ⟨by trivial, by trivial⟩, fun h _ => absurd rfl h,
        fun url h => by simp at h⟩

/-- Witness for the amended C6 at a concrete input: a code-grant exchange
against a provider that answers 200 without an `access_token` field. -/
theorem fetchToken_grant_selection_and_errors_witness :
    (("c" : String) ≠ "" → ("https://cb" : String) ≠ "" →
      (fetchToken { name := "prov", token_endpoint := "https://tok",
                    redirect_uri := "https://cb" } "c" ""
        (fun _ => (200, [("scope", "openid")]))).2.1 = some GrantType.authorizationCode)
    ∧ (("c" : String) = "" → ("" : String) ≠ "" →
      (fetchToken { name := "prov", token_endpoint := "https://tok",
                    redirect_uri := "https://cb" } "c" ""
        (fun _ => (200, [("scope", "openid")]))).2.1 = some GrantType.refreshGrant)
    ∧ (("c" : String) = "" → ("" : String) = "" →
      (fetchToken { name := "prov", token_endpoint := "https://tok",
                    redirect_uri := "https://cb" } "c" ""
        (fun _ => (200, [("scope", "openid")]))).1
        = .error "No get any authorization code or refresh token"
      ∧ (fetchToken { name := "prov", token_endpoint := "https://tok",
                      redirect_uri := "https://cb" } "c" ""
          (fun _ => (200, [("scope", "openid")]))).2.1 = none)
    ∧ (("c" : String) ≠ "" → ("https://cb" : String) = "" →
      (fetchToken { name := "prov", token_endpoint := "https://tok",
                    redirect_uri := "https://cb" } "c" ""
        (fun _ => (200, [("scope", "openid")]))).1
        = .error ("Not found redirect_uri for " ++ "prov" ++ " provider")
      ∧ (fetchToken { name := "prov", token_endpoint := "https://tok",
                      redirect_uri := "https://cb" } "c" ""
          (fun _ => (200, [("scope", "openid")]))).2.1 = none)
    ∧ (∀ url, (fetchToken { name := "prov", token_endpoint := "https://tok",
                            redirect_uri := "https://cb" } "c" ""
        (fun _ => (200, [("scope", "openid")]))).2.2 = some url →
      (((fun _ : String => ((200 : Nat), [("scope", "openid")])) url).1 = 200 →
        ((((fun _ : String => ((200 : Nat), [("scope", "openid")])) url).2.map
            Prod.fst).contains "access_token") = false →
        (fetchToken { name := "prov", token_endpoint := "https://tok",
                      redirect_uri := "https://cb" } "c" ""
          (fun _ => (200, [("scope", "openid")]))).1 = .error "No expected response.")
      ∧ (((fun _ : String => ((200 : Nat), [("scope", "openid")])) url).1 ≠ 200 →
        (fetchToken { name := "prov", token_endpoint := "https://tok",
                      redirect_uri := "https://cb" } "c" ""
          (fun _ => (200, [("scope", "openid")]))).1
          = .error (toString ((fun _ : String => ((200 : Nat), [("scope", "openid")])) url).1))) :=
  fetchToken_grant_selection_and_errors
    { name := "prov", token_endpoint := "https://tok", redirect_uri := "https://cb" }
    "c" "" (fun _ => (200, [("scope", "openid")])) (by decide)

/-- Counterexample to C6 as frozen: a provider response with HTTP status
404 and no `access_token` field produces the error `404`, not the
malformed-provider-response error `No expected response.` — the HTTP
status is checked first, so the malformed-response error is not raised
regardless of HTTP status. -/
theorem fetchToken_malformed_response_counterexample :
    (fetchToken { name := "prov", token_endpoint := "https://tok",
                  redirect_uri := "https://cb" } "c" ""
      (fun _ => (404, []))).1 = .error "404"
    ∧ (Except.error "404" : Except String (List (String × String)))
        ≠ .error "No expected response." :=
  ⟨rfl, by intro h; rw [Except.error.injEq] at h; exact absurd h (by decide)⟩

/-- Python `str.split(sep)` for a single-character separator, on character
lists: keeps empty fields, and the empty string yields one empty field
(matching CPython semantics for an explicit separator). -/
def splitOnChar (sep : Char) : List Char → List (List Char)
  | [] => [[]]
  | c :: rest =>
    match splitOnChar sep rest with
    | [] => [[]]
    | h :: t => if c = sep then [] :: h :: t else (c :: h) :: t

/-- Python truthiness of an optional string claim: `dict.get` yields a
falsy value when the key is absent (`none`) or the value is the empty
string. -/
def truthyStr : Option String → Bool
  | none => false
  | some s => s != ""

/-- Python `str.lower()` restricted to ASCII (`A`-`Z` map to `a`-`z`);
non-ASCII case mapping is not modelled — every non-ASCII character is
removed by the subsequent `[^A-Za-z0-9]` filter anyway. -/
def pyLowerChar (c : Char) : Char :=
  if 65 ≤ c.toNat ∧ c.toNat ≤ 90 then Char.ofNat (c.toNat + 32) else c

/-- Character class of the regex `[A-Za-z0-9]` used by
`re.sub('[^A-Za-z0-9]+', '', ...)`. -/
def pyIsAlnum (c : Char) : Bool :=
  (65 ≤ c.toNat && c.toNat ≤ 90) || (97 ≤ c.toNat && c.toNat ≤ 122) ||
    (48 ≤ c.toNat && c.toNat ≤ 57)

/-- Sanitisation applied to the raw username in
`OAuth2IdProvider.__parseUserProfile` (`OAuth2IdProvider.py:149`):
lowercase, strip every non-alphanumeric character, truncate to 13. -/
def pySanitize (s : String) : String :=
  String.mk (((s.data.map pyLowerChar).filter pyIsAlnum).take 13)

/-- Raw username choice of `OAuth2IdProvider.__parseUserProfile`
(`OAuth2IdProvider.py:144-148`), mirroring the Python `or`/`and` chain:
`pname or gname and fname and gname[0]+fname or name and len(name)>1 and
name[0][0]+name[1] or ''` with `name = userProfile.get('name') and
userProfile['name'].split(' ')`.  The `.error` case models the Python
`IndexError` raised by `name[0][0]` when the first token is empty (the
name starts with a space). -/
def parseUsernameRaw (pname gname fname nameClaim : Option String) : Except Unit String :=
  if truthyStr pname then .ok (pname.getD "")
  else if truthyStr gname && truthyStr fname then
    .ok (String.mk ((gname.getD "").data.take 1) ++ fname.getD "")
  else if truthyStr nameClaim then
    let tokens := splitOnChar ' ' (nameClaim.getD "").data
    if tokens.length > 1 then
      match tokens.headD [] with
      | [] => .error ()
      | c :: _ => .ok (String.mk [c] ++ String.mk (tokens.getD 1 []))
    else .ok ""
  else .ok ""

/-- Username computation of `OAuth2IdProvider.__parseUserProfile`
(`OAuth2IdProvider.py:144-149`): raw choice followed by sanitisation. -/
def parseUsername (pname gname fname nameClaim : Option String) : Except Unit String :=
  (parseUsernameRaw pname gname fname nameClaim).map pySanitize

theorem charOfNatToNatFact (n : Nat) (h : n.isValidChar) : (Char.ofNat n).toNat = n := by
  simp [Char.ofNat, h, Char.toNat, Char.ofNatAux]
  rfl

theorem pyLowerChar_not_upper (d : Char) :
    ¬(65 ≤ (pyLowerChar d).toNat ∧ (pyLowerChar d).toNat ≤ 90) := by
  unfold pyLowerChar
  by_cases h : 65 ≤ d.toNat ∧ d.toNat ≤ 90
  · rw [if_pos h]
    have hv : (d.toNat + 32).isValidChar := Or.inl (by omega)
    have := charOfNatToNatFact (d.toNat + 32) hv
    omega
  · rw [if_neg h]
    exact h

theorem pySanitize_bound (s : String) :
    (pySanitize s).length ≤ 13
    ∧ ∀ c ∈ (pySanitize s).data,
        (97 ≤ c.toNat ∧ c.toNat ≤ 122) ∨ (48 ≤ c.toNat ∧ c.toNat ≤ 57) := by
  constructor
  · show (((s.data.map pyLowerChar).filter pyIsAlnum).take 13).length ≤ 13
    rw [List.length_take]
    exact min_le_left _ _
  · intro c hc
    have hc2 : c ∈ (s.data.map pyLowerChar).filter pyIsAlnum := List.mem_of_mem_take hc
    rw [List.mem_filter] at hc2
    obtain ⟨hmem, halnum⟩ := hc2
    rw [List.mem_map] at hmem
    obtain ⟨d, -, hd⟩ := hmem
    have hup : ¬(65 ≤ c.toNat ∧ c.toNat ≤ 90) := hd ▸ pyLowerChar_not_upper d
    simp only [pyIsAlnum, Bool.or_eq_true, Bool.and_eq_true, decide_eq_true_eq] at halnum
    rcases halnum with (h | h) | h
    · exact absurd h hup
    · exact Or.inl h
    · exact Or.inr h

/-- C7 (amended): the parsed username follows the priority chain of
`__parseUserProfile` — the `preferred_username` claim when present and
non-empty, else the first character of `given_name` concatenated with
`family_name` when both are present and non-empty, else, when the `name`
claim splits (on the space character) into at least two tokens, the first
character of the first token concatenated with the second token, else the
empty string — and the result is lowercased, stripped of every character
outside `A-Za-z0-9` and truncated to 13 characters, so every returned
username consists of at most 13 lowercase-alphanumeric characters; but
when the `name`-claim branch is selected and the first token is empty
(the name starts with a space), `name[0][0]` raises an `IndexError`
instead of producing a username.  (The claim as frozen asserts a username
for every profile; see the counterexample.) -/
theorem parseUserProfile_username_shape (pname gname fname nameClaim : Option String) :
    (truthyStr pname = true →
      parseUsername pname gname fname nameClaim = .ok (pySanitize (pname.getD "")))
    ∧ (truthyStr pname = false → truthyStr gname = true → truthyStr fname = true →
      parseUsername pname gname fname nameClaim
        = .ok (pySanitize (String.mk ((gname.getD "").data.take 1) ++ fname.getD "")))
    ∧ (truthyStr pname = false → (truthyStr gname && truthyStr fname) = false →
        truthyStr nameClaim = true →
        ∀ tk1 tks, splitOnChar ' ' (nameClaim.getD "").data = tk1 :: tks → tks ≠ [] →
        (tk1 = [] → parseUsername pname gname fname nameClaim = .error ())
        ∧ (∀ c rest1, tk1 = c :: rest1 →
            parseUsername pname gname fname nameClaim
              = .ok (pySanitize (String.mk [c] ++ String.mk (tks.headD [])))))
    ∧ (truthyStr pname = false → (truthyStr gname && truthyStr fname) = false →
        truthyStr nameClaim = false →
      parseUsername pname gname fname nameClaim = .ok "")
    ∧ (∀ u, parseUsername pname gname fname nameClaim = .ok u →
      u.length ≤ 13
      ∧ ∀ c ∈ u.data, (97 ≤ c.toNat ∧ c.toNat ≤ 122) ∨ (48 ≤ c.toNat ∧ c.toNat ≤ 57)) := by
  refine ⟨?_, ?_, ?_, ?_, ?_⟩
  · intro hp
    unfold parseUsername parseUsernameRaw
    rw [if_pos hp]
    rfl
  · intro hp hg hf
    unfold parseUsername parseUsernameRaw
    rw [hp]
    simp only [Bool.false_eq_true, if_false, hg, hf, Bool.and_self, if_true]
    rfl
  · intro hp hgf hn tk1 tks htoks htks
    cases tks with
    | nil => exact absurd rfl htks
    | cons t2 trest =>
      constructor
      · intro h1
        subst h1
        unfold parseUsername parseUsernameRaw
        rw [hp]
        simp only [Bool.false_eq_true, if_false, hgf, hn, if_true, htoks]
        rw [if_pos (by simp [List.length_cons])]
        rfl
      · intro c rest1 h1
        subst h1
        unfold parseUsername parseUsernameRaw
        rw [hp]
        simp only [Bool.false_eq_true, if_false, hgf, hn, if_true, htoks]
        rw [if_pos (by simp [List.length_cons])]
        rfl
  · intro hp hgf hn
    unfold parseUsername parseUsernameRaw
    rw [hp, hgf, hn]
    simp
    rfl
  · intro u hu
    unfold parseUsername at hu
    cases hr : parseUsernameRaw pname gname fname nameClaim with
    | error e => rw [hr] at hu; simp [Except.map] at hu
    | ok raw =>
      rw [hr] at hu
      simp only [Except.map, Except.ok.injEq] at hu
      subst hu
      exact pySanitize_bound raw

/-- Witness for the amended C7 at a concrete input: only the
`preferred_username` claim is present (value `John.Doe-Smith_Longname42`),
so the username is its sanitisation. -/
theorem parseUserProfile_username_shape_witness :
    (truthyStr (some "John.Doe-Smith_Longname42") = true →
      parseUsername (some "John.Doe-Smith_Longname42") none none none
        = .ok (pySanitize ((some "John.Doe-Smith_Longname42").getD "")))
    ∧ (truthyStr (some "John.Doe-Smith_Longname42") = false →
        truthyStr (none : Option String) = true → truthyStr (none : Option String) = true →
      parseUsername (some "John.Doe-Smith_Longname42") none none none
        = .ok (pySanitize (String.mk (((none : Option String).getD "").data.take 1)
            ++ (none : Option String).getD "")))
    ∧ (truthyStr (some "John.Doe-Smith_Longname42") = false →
        (truthyStr (none : Option String) && truthyStr (none : Option String)) = false →
        truthyStr (none : Option String) = true →
        ∀ tk1 tks, splitOnChar ' ' (((none : Option String)).getD "").data = tk1 :: tks →
          tks ≠ [] →
        (tk1 = [] → parseUsername (some "John.Doe-Smith_Longname42") none none none
            = .error ())
        ∧ (∀ c rest1, tk1 = c :: rest1 →
            parseUsername (some "John.Doe-Smith_Longname42") none none none
              = .ok (pySanitize (String.mk [c] ++ String.mk (tks.headD [])))))
    ∧ (truthyStr (some "John.Doe-Smith_Longname42") = false →
        (truthyStr (none : Option String) && truthyStr (none : Option String)) = false →
        truthyStr (none : Option String) = false →
      parseUsername (some "John.Doe-Smith_Longname42") none none none = .ok "")
    ∧ (∀ u, parseUsername (some "John.Doe-Smith_Longname42") none none none = .ok u →
      u.length ≤ 13
      ∧ ∀ c ∈ u.data, (97 ≤ c.toNat ∧ c.toNat ≤ 122) ∨ (48 ≤ c.toNat ∧ c.toNat ≤ 57)) :=
  parseUserProfile_username_shape (some "John.Doe-Smith_Longname42") none none none

/-- Counterexample to C7 as frozen: the profile whose only claim is
`name = " John Smith"` (leading space) makes `__parseUserProfile` raise an
`IndexError` at `name[0][0]` instead of returning a username. -/
theorem parseUserProfile_username_counterexample :
    parseUsername none none none (some " John Smith") = .error ()
    ∧ parseUsername (some "John.Doe-Smith_Longname42") none none none
        = .ok "johndoesmithl" := by
  constructor
  · rfl
  · rfl

/-- Outcome of the status-polling loop of `doOAuthMagic`. -/
inductive PollOutcome where
  | timedOut
  | finished (status : String)
deriving DecidableEq, Repr

/-- Embeds the polling loop of `dirac-proxy-init.doOAuthMagic`
(`dirac-proxy-init.py:428-453`) in an idealised clock where each
iteration's `time.sleep(5)` accounts for all elapsed time (HTTP requests
are instantaneous): sleep 5 seconds, exit with `Time out.` once the
elapsed time exceeds 300 seconds, otherwise poll the session status
(`statuses i` is the i-th poll answer) and loop while it is `prepared` or
`in progress`.  The third result component logs the store operations (kill
requests) issued by the loop — the source issues none.  The fuel of 61
iterations is exact: the timeout check fires at the 61st sleep. -/
def pollLoopAux (statuses : Nat → String) : Nat → Nat → Nat →
    PollOutcome × Nat × List String
  | 0, _, slept => (PollOutcome.timedOut, slept, [])
  | Nat.succ f, i, slept =>
    let slept2 := slept + 5
    if slept2 > 300 then (PollOutcome.timedOut, slept2, [])
    else
      let st := statuses i
      if st = "prepared" ∨ st = "in progress" then
        pollLoopAux statuses f (i + 1) slept2
      else
        (PollOutcome.finished st, slept2, [])

/-- Status-polling loop of `doOAuthMagic`, started with zero elapsed
time. -/
def pollLoop (statuses : Nat → String) : PollOutcome × Nat × List String :=
  pollLoopAux statuses 61 0 0

theorem pollLoopAux_spec (statuses : Nat → String) (fuel i slept : Nat)
    (hslept : slept = 5 * i) (hfuel : fuel + i = 61) :
    (pollLoopAux statuses fuel i slept).2.1 ≤ 305
    ∧ (∃ n, (pollLoopAux statuses fuel i slept).2.1 = 5 * n ∧ 1 ≤ n)
    ∧ (pollLoopAux statuses fuel i slept).2.2 = []
    ∧ ((pollLoopAux statuses fuel i slept).1 = PollOutcome.timedOut →
        (pollLoopAux statuses fuel i slept).2.1 = 305) := by
  induction fuel generalizing i slept with
  | zero =>
    have hi : i = 61 := by omega
    subst hi
    subst hslept
    exact ⟨by norm_num [pollLoopAux], ⟨61, by norm_num [pollLoopAux]⟩,
      rfl, fun _ => by norm_num [pollLoopAux]⟩
  | succ f ih =>
    simp only [pollLoopAux]
    by_cases htime : slept + 5 > 300
    · rw [if_pos htime]
      dsimp only
      have hi : i = 60 := by omega
      refine ⟨by omega, ⟨i + 1, by omega, by omega⟩, rfl, fun _ => by omega⟩
    · rw [if_neg htime]
      by_cases hst : statuses i = "prepared" ∨ statuses i = "in progress"
      · rw [if_pos hst]
        exact ih (i + 1) (slept + 5) (by omega) (by omega)
      · rw [if_neg hst]
        dsimp only
        exact ⟨by omega, ⟨i + 1, by omega, by omega⟩, rfl, fun h => by simp at h⟩

/-- C8 (amended): the polling helper of `doOAuthMagic` polls at a fixed
5-second interval (the total waiting time is always a positive multiple of
5 seconds), enforces the 300-second timeout at the first check past the
mark — so in the idealised clock it waits at most 305 seconds, and exactly
305 seconds whenever it times out — and on timeout it exits with
`Time out.` without issuing any kill operation, leaving the polled session
in the store.  (The claim as frozen asserts that the session is killed on
timeout and that the total wait never exceeds 300 seconds; see the
counterexample.) -/
theorem doOAuthMagic_poll_timeout (statuses : Nat → String) :
    (pollLoop statuses).2.1 ≤ 305
    ∧ (∃ n, (pollLoop statuses).2.1 = 5 * n ∧ 1 ≤ n)
    ∧ (pollLoop statuses).2.2 = []
    ∧ ((pollLoop statuses).1 = PollOutcome.timedOut → (pollLoop statuses).2.1 = 305) :=
  pollLoopAux_spec statuses 61 0 0 (by norm_num) (by norm_num)

/-- Witness for the amended C8 at a concrete input: a session that stays
`in progress` forever. -/
theorem doOAuthMagic_poll_timeout_witness :
    (pollLoop (fun _ => "in progress")).2.1 ≤ 305
    ∧ (∃ n, (pollLoop (fun _ => "in progress")).2.1 = 5 * n ∧ 1 ≤ n)
    ∧ (pollLoop (fun _ => "in progress")).2.2 = []
    ∧ ((pollLoop (fun _ => "in progress")).1 = PollOutcome.timedOut →
        (pollLoop (fun _ => "in progress")).2.1 = 305) :=
  doOAuthMagic_poll_timeout (fun _ => "in progress")

/-- Counterexample to C8 as frozen: when every poll answers `in progress`,
the loop exits by timeout after 305 seconds of waiting — more than the
claimed 300-second bound — and issues no kill operation, leaving the
session dangling in the store. -/
theorem doOAuthMagic_poll_timeout_counterexample :
    pollLoop (fun _ => "in progress") = (PollOutcome.timedOut, 305, [])
    ∧ (305 : Nat) > 300 :=
  ⟨rfl, by decide⟩
